import Mathlib

/-!
# Verification of the Agile Companion core

Shallow embedding of the core logic of the `agile-companion` repository:

* `src/backend/models.py` — the pydantic schema (`DocumentationPackage` and its
  nested entities), embedded as Lean structures with explicit validators over a
  JSON value type.  Field validation models pydantic v2 semantics for JSON
  input: required fields must be present, `str` fields accept only strings
  (no coercion from numbers or booleans), `Literal[...]` fields accept exactly
  the listed strings, `List[...]` fields accept only arrays, `dict` fields
  accept only objects, and undeclared fields are ignored (pydantic's default
  `extra='ignore'`).  Validation error messages show the offending input
  value truncated to at most 50 characters, modelling the `input_value=...`
  component of pydantic v2's `ValidationError` string rendering
  (pydantic-core's `truncate_safe_repr`).
* `src/backend/main.py` — the `/api/generate` endpoint: configuration check,
  empty-transcript check, prompt construction, fenced-code-block stripping,
  JSON parsing (`json.loads`, modelled by a recursive-descent parser on
  characters; numbers are modelled as integers), schema validation, and the
  mapping of each failure to an HTTP status and detail string.
* The sliding-window rate limiter described in the specification (absent from
  the source tree), modelled from the spec.
-/

/-- JSON values, the structured data exchanged with the model endpoint.
Numbers are modelled as integers (the subset exercised by this schema). -/
inductive Json where
  | str (s : String)
  | num (n : Int)
  | bool (b : Bool)
  | null
  | arr (elems : List Json)
  | obj (fields : List (String × Json))

/-- First binding of key `k` in an object's field list; models Python
dict lookup for the keys pydantic reads (JSON objects parsed by `json.loads`
keep the last duplicate, but the schema inputs in scope have distinct keys). -/
def getField : List (String × Json) → String → Option Json
  | [], _ => none
  | (k', v) :: rest, k => if k' = k then some v else getField rest k

mutual
/-- Python `repr` of a JSON value, as it appears in the `input_value=...`
part of a pydantic v2 validation error message. -/
def render : Json → String
  | .str s => "'" ++ s ++ "'"
  | .num n => toString n
  | .bool b => if b then "True" else "False"
  | .null => "None"
  | .arr es => "[" ++ renderList es ++ "]"
  | .obj fs => "\x7b" ++ renderObj fs ++ "\x7d"

/-- Comma-separated rendering of array elements. -/
def renderList : List Json → String
  | [] => ""
  | e :: es => render e ++ ", " ++ renderList es

/-- Comma-separated rendering of object entries. -/
def renderObj : List (String × Json) → String
  | [] => ""
  | (k, v) :: fs => "'" ++ k ++ "': " ++ render v ++ ", " ++ renderObj fs
end

/-- pydantic-core's truncation of a value's repr for display in validation
error messages (`truncate_safe_repr`): a repr longer than about 50 characters
is shown as its head, an ellipsis, and its tail, capped at 50 characters —
the full value never appears. -/
def truncateRepr (s : String) : String :=
  if s.length ≤ 50 then s
  else ⟨s.data.take 25⟩ ++ "..." ++ ⟨s.data.drop (s.length - 22)⟩

/-- Python's type name of a JSON value, as it appears in `TypeError`
messages. -/
def pyTypeName : Json → String
  | .str _ => "str"
  | .num _ => "int"
  | .bool _ => "bool"
  | .null => "NoneType"
  | .arr _ => "list"
  | .obj _ => "dict"

/-- One line of a pydantic v2 validation error message: the field, what was
expected, and the offending value's truncated repr (`str(ValidationError)`
shows `input_value=` through `truncate_safe_repr`, never the full value). -/
def valErrMsg (k what : String) (v : Json) : String :=
  k ++ ": Input should be " ++ what ++ ", input_value=" ++ truncateRepr (render v)

/-- Literal-domain tables: the fixed string set of a `Literal[...]` field,
each string paired with its embedded enum value. -/
def litLookup {α : Type} : List (String × α) → String → Option α
  | [], _ => none
  | (s', a) :: rest, s => if s' = s then some a else litLookup rest s

/-- Validate a JSON value against a `Literal[...]` domain table: the value
must be a string drawn from the table (pydantic rejects everything else). -/
def litOfJson {α : Type} (table : List (String × α)) (k : String) :
    Json → Except String α
  | .str s =>
    match litLookup table s with
    | some a => .ok a
    | none => .error (valErrMsg k "one of the permitted literals" (.str s))
  | v => .error (valErrMsg k "one of the permitted literals" v)

/-- Required field: missing keys are a validation error (`Field required`). -/
def reqField (f : List (String × Json)) (k : String) : Except String Json :=
  match getField f k with
  | none => .error (k ++ ": Field required")
  | some v => .ok v

/-- A `str`-typed field accepts exactly JSON strings (pydantic v2 performs no
number/boolean-to-string coercion on JSON input). -/
def asStr (k : String) : Json → Except String String
  | .str s => .ok s
  | v => .error (valErrMsg k "a valid string" v)

/-- A `List[...]`-typed field accepts exactly JSON arrays. -/
def asList (k : String) : Json → Except String (List Json)
  | .arr l => .ok l
  | v => .error (valErrMsg k "a valid list" v)

/-- A `dict`-typed field accepts exactly JSON objects. -/
def asObj (k : String) : Json → Except String (List (String × Json))
  | .obj f => .ok f
  | v => .error (valErrMsg k "a valid dictionary" v)

/-- Required `str` field. -/
def reqStr (f : List (String × Json)) (k : String) : Except String String := do
  asStr k (← reqField f k)

/-- Required `List` field. -/
def reqList (f : List (String × Json)) (k : String) : Except String (List Json) := do
  asList k (← reqField f k)

/-- Required `dict` field. -/
def reqObj (f : List (String × Json)) (k : String) :
    Except String (List (String × Json)) := do
  asObj k (← reqField f k)

/-- Required `Literal[...]` field. -/
def reqLit {α : Type} (table : List (String × α)) (f : List (String × Json))
    (k : String) : Except String α := do
  litOfJson table k (← reqField f k)

/-! ## Literal domains of `models.py` -/

/-- `test_type: Literal["Functional", "UI/UX", "Security", "Performance", "Regression"]` -/
inductive TestType where
  | functional | uiux | security | performance | regression
deriving DecidableEq

/-- The string of each `TestType` literal. -/
def TestType.toStr : TestType → String
  | .functional => "Functional"
  | .uiux => "UI/UX"
  | .security => "Security"
  | .performance => "Performance"
  | .regression => "Regression"

/-- Domain table for `test_type`. -/
def TestType.table : List (String × TestType) :=
  [("Functional", .functional), ("UI/UX", .uiux), ("Security", .security),
   ("Performance", .performance), ("Regression", .regression)]

/-- `priority: Literal["Must Have", "Should Have", "Could Have", "Won't Have"]` -/
inductive Priority where
  | mustHave | shouldHave | couldHave | wontHave
deriving DecidableEq

/-- The string of each `Priority` literal. -/
def Priority.toStr : Priority → String
  | .mustHave => "Must Have"
  | .shouldHave => "Should Have"
  | .couldHave => "Could Have"
  | .wontHave => "Won't Have"

/-- Domain table for `priority`. -/
def Priority.table : List (String × Priority) :=
  [("Must Have", .mustHave), ("Should Have", .shouldHave),
   ("Could Have", .couldHave), ("Won't Have", .wontHave)]

/-- `complexity: Literal["XS", "S", "M", "L", "XL", "Needs Discussion"]` -/
inductive Complexity where
  | xs | s | m | l | xl | needsDiscussion
deriving DecidableEq

/-- The string of each `Complexity` literal. -/
def Complexity.toStr : Complexity → String
  | .xs => "XS"
  | .s => "S"
  | .m => "M"
  | .l => "L"
  | .xl => "XL"
  | .needsDiscussion => "Needs Discussion"

/-- Domain table for `complexity`. -/
def Complexity.table : List (String × Complexity) :=
  [("XS", .xs), ("S", .s), ("M", .m), ("L", .l), ("XL", .xl),
   ("Needs Discussion", .needsDiscussion)]

/-- `definition_of_ready_status: Literal["Ready for Sprint", "Needs Refinement"]` -/
inductive ReadyStatus where
  | readyForSprint | needsRefinement
deriving DecidableEq

/-- The string of each `ReadyStatus` literal. -/
def ReadyStatus.toStr : ReadyStatus → String
  | .readyForSprint => "Ready for Sprint"
  | .needsRefinement => "Needs Refinement"

/-- Domain table for `definition_of_ready_status`. -/
def ReadyStatus.table : List (String × ReadyStatus) :=
  [("Ready for Sprint", .readyForSprint), ("Needs Refinement", .needsRefinement)]

/-- `category: Literal["Risk", "Assumption", "Dependency"]` -/
inductive RiskCategory where
  | risk | assumption | dependency
deriving DecidableEq

/-- The string of each `RiskCategory` literal. -/
def RiskCategory.toStr : RiskCategory → String
  | .risk => "Risk"
  | .assumption => "Assumption"
  | .dependency => "Dependency"

/-- Domain table for the risk `category`. -/
def RiskCategory.table : List (String × RiskCategory) :=
  [("Risk", .risk), ("Assumption", .assumption), ("Dependency", .dependency)]

/-- `impact: Literal["High", "Medium", "Low"]` -/
inductive Impact where
  | high | medium | low
deriving DecidableEq

/-- The string of each `Impact` literal. -/
def Impact.toStr : Impact → String
  | .high => "High"
  | .medium => "Medium"
  | .low => "Low"

/-- Domain table for `impact`. -/
def Impact.table : List (String × Impact) :=
  [("High", .high), ("Medium", .medium), ("Low", .low)]

/-- `audience: Literal["Internal Users", "External Customers", "Admins", "Developers"]` -/
inductive Audience where
  | internalUsers | externalCustomers | admins | developers
deriving DecidableEq

/-- The string of each `Audience` literal. -/
def Audience.toStr : Audience → String
  | .internalUsers => "Internal Users"
  | .externalCustomers => "External Customers"
  | .admins => "Admins"
  | .developers => "Developers"

/-- Domain table for `audience`. -/
def Audience.table : List (String × Audience) :=
  [("Internal Users", .internalUsers), ("External Customers", .externalCustomers),
   ("Admins", .admins), ("Developers", .developers)]

/-- `severity: Literal["Low", "Medium", "High", "Critical"]` -/
inductive Severity where
  | low | medium | high | critical
deriving DecidableEq

/-- The string of each `Severity` literal. -/
def Severity.toStr : Severity → String
  | .low => "Low"
  | .medium => "Medium"
  | .high => "High"
  | .critical => "Critical"

/-- Domain table for `severity` (also used by `overall_risk`, which has the
same literal set). -/
def Severity.table : List (String × Severity) :=
  [("Low", .low), ("Medium", .medium), ("High", .high), ("Critical", .critical)]

/-- Scope-alert `category` literal set. -/
inductive ScopeCategory where
  | featureCreep | scopeExpansion | timelinePressure
  | unclearRequirements | technicalDebt | resourceConstraint
deriving DecidableEq

/-- The string of each `ScopeCategory` literal. -/
def ScopeCategory.toStr : ScopeCategory → String
  | .featureCreep => "Feature Creep"
  | .scopeExpansion => "Scope Expansion"
  | .timelinePressure => "Timeline Pressure"
  | .unclearRequirements => "Unclear Requirements"
  | .technicalDebt => "Technical Debt"
  | .resourceConstraint => "Resource Constraint"

/-- Domain table for the scope `category`. -/
def ScopeCategory.table : List (String × ScopeCategory) :=
  [("Feature Creep", .featureCreep), ("Scope Expansion", .scopeExpansion),
   ("Timeline Pressure", .timelinePressure), ("Unclear Requirements", .unclearRequirements),
   ("Technical Debt", .technicalDebt), ("Resource Constraint", .resourceConstraint)]

/-! ## Entities of `models.py` -/

/-- `class AcceptanceCriteria(BaseModel)` -/
structure AcceptanceCriteria where
  condition : String
  test_type : TestType

/-- `class BacklogItem(BaseModel)` -/
structure BacklogItem where
  id : String
  title : String
  user_story : String
  priority : Priority
  complexity : Complexity
  definition_of_ready_status : ReadyStatus
  missing_info : String
  acceptance_criteria : List AcceptanceCriteria

/-- `class DecisionNote(BaseModel)` -/
structure DecisionNote where
  topic : String
  decision_made : String
  rationale : String
  owner : String

/-- `class RiskAssumption(BaseModel)` -/
structure RiskAssumption where
  category : RiskCategory
  description : String
  impact : Impact
  mitigation_strategy : String

/-- `class ReleaseNoteEntry(BaseModel)` -/
structure ReleaseNoteEntry where
  feature_name : String
  value_statement : String
  audience : Audience

/-- `class ScopeAlert(BaseModel)` -/
structure ScopeAlert where
  severity : Severity
  category : ScopeCategory
  description : String
  quote : String
  recommendation : String
  impacted_items : List String

/-- `class ScopeSentinel(BaseModel)`; `metrics: dict` is an open mapping,
kept as the raw object entries. -/
structure ScopeSentinel where
  overall_risk : Severity
  summary : String
  alerts : List ScopeAlert
  metrics : List (String × Json)

/-- `class DocumentationPackage(BaseModel)` — the root aggregate. -/
structure DocumentationPackage where
  meeting_summary : String
  backlog_items : List BacklogItem
  decision_log : List DecisionNote
  risk_register : List RiskAssumption
  release_notes_draft : List ReleaseNoteEntry
  scope_sentinel : ScopeSentinel

/-! ## Validators (pydantic v2 semantics for JSON input) -/

/-- Validate every element of a list left-to-right, stopping at the first
error (pydantic validates `List[...]` fields elementwise). -/
def exceptMapM {α β : Type} (g : α → Except String β) :
    List α → Except String (List β)
  | [] => .ok []
  | a :: as => do
    let b ← g a
    let bs ← exceptMapM g as
    .ok (b :: bs)

/-- Validate one acceptance criterion. -/
def validateAcceptanceCriteria : Json → Except String AcceptanceCriteria
  | .obj f => do
    let condition ← reqStr f "condition"
    let test_type ← reqLit TestType.table f "test_type"
    .ok ⟨condition, test_type⟩
  | v => .error (valErrMsg "acceptance_criteria" "a valid dictionary" v)

/-- Validate one backlog item. -/
def validateBacklogItem : Json → Except String BacklogItem
  | .obj f => do
    let i ← reqStr f "id"
    let title ← reqStr f "title"
    let user_story ← reqStr f "user_story"
    let priority ← reqLit Priority.table f "priority"
    let complexity ← reqLit Complexity.table f "complexity"
    let dor ← reqLit ReadyStatus.table f "definition_of_ready_status"
    let missing_info ← reqStr f "missing_info"
    let acJson ← reqList f "acceptance_criteria"
    let acceptance_criteria ← exceptMapM validateAcceptanceCriteria acJson
    .ok ⟨i, title, user_story, priority, complexity, dor, missing_info, acceptance_criteria⟩
  | v => .error (valErrMsg "backlog_items" "a valid dictionary" v)

/-- Validate one decision note. -/
def validateDecisionNote : Json → Except String DecisionNote
  | .obj f => do
    let topic ← reqStr f "topic"
    let decision_made ← reqStr f "decision_made"
    let rationale ← reqStr f "rationale"
    let owner ← reqStr f "owner"
    .ok ⟨topic, decision_made, rationale, owner⟩
  | v => .error (valErrMsg "decision_log" "a valid dictionary" v)

/-- Validate one risk/assumption entry. -/
def validateRiskAssumption : Json → Except String RiskAssumption
  | .obj f => do
    let category ← reqLit RiskCategory.table f "category"
    let description ← reqStr f "description"
    let impact ← reqLit Impact.table f "impact"
    let mitigation_strategy ← reqStr f "mitigation_strategy"
    .ok ⟨category, description, impact, mitigation_strategy⟩
  | v => .error (valErrMsg "risk_register" "a valid dictionary" v)

/-- Validate one release-note entry. -/
def validateReleaseNoteEntry : Json → Except String ReleaseNoteEntry
  | .obj f => do
    let feature_name ← reqStr f "feature_name"
    let value_statement ← reqStr f "value_statement"
    let audience ← reqLit Audience.table f "audience"
    .ok ⟨feature_name, value_statement, audience⟩
  | v => .error (valErrMsg "release_notes_draft" "a valid dictionary" v)

/-- Validate one scope alert.  `impacted_items` is a `List[str]`: every
element must be a string. -/
def validateScopeAlert : Json → Except String ScopeAlert
  | .obj f => do
    let severity ← reqLit Severity.table f "severity"
    let category ← reqLit ScopeCategory.table f "category"
    let description ← reqStr f "description"
    let quote ← reqStr f "quote"
    let recommendation ← reqStr f "recommendation"
    let itemsJson ← reqList f "impacted_items"
    let impacted_items ← exceptMapM (asStr "impacted_items") itemsJson
    .ok ⟨severity, category, description, quote, recommendation, impacted_items⟩
  | v => .error (valErrMsg "alerts" "a valid dictionary" v)

/-- Validate the scope sentinel. -/
def validateScopeSentinel : Json → Except String ScopeSentinel
  | .obj f => do
    let overall_risk ← reqLit Severity.table f "overall_risk"
    let summary ← reqStr f "summary"
    let alertsJson ← reqList f "alerts"
    let alerts ← exceptMapM validateScopeAlert alertsJson
    let metrics ← reqObj f "metrics"
    .ok ⟨overall_risk, summary, alerts, metrics⟩
  | v => .error (valErrMsg "scope_sentinel" "a valid dictionary" v)

/-- Validate a whole documentation package, the embedding of
`DocumentationPackage(**data)`: `data` must be an object, every declared
field must be present and valid, and undeclared fields are ignored. -/
def validateDocumentationPackage : Json → Except String DocumentationPackage
  | .obj f => do
    let meeting_summary ← reqStr f "meeting_summary"
    let itemsJson ← reqList f "backlog_items"
    let backlog_items ← exceptMapM validateBacklogItem itemsJson
    let decJson ← reqList f "decision_log"
    let decision_log ← exceptMapM validateDecisionNote decJson
    let riskJson ← reqList f "risk_register"
    let risk_register ← exceptMapM validateRiskAssumption riskJson
    let relJson ← reqList f "release_notes_draft"
    let release_notes_draft ← exceptMapM validateReleaseNoteEntry relJson
    let sentinel ← validateScopeSentinel (← reqField f "scope_sentinel")
    .ok ⟨meeting_summary, backlog_items, decision_log, risk_register,
         release_notes_draft, sentinel⟩
  | v =>
    .error ("DocumentationPackage() argument after ** must be a mapping, not " ++ pyTypeName v)

/-! ## Serialization (`model_dump` / FastAPI response serialization) -/

/-- Serialize one acceptance criterion. -/
def acToJson (a : AcceptanceCriteria) : Json :=
  .obj [("condition", .str a.condition), ("test_type", .str a.test_type.toStr)]

/-- Serialize one backlog item. -/
def itemToJson (b : BacklogItem) : Json :=
  .obj [("id", .str b.id), ("title", .str b.title),
        ("user_story", .str b.user_story),
        ("priority", .str b.priority.toStr),
        ("complexity", .str b.complexity.toStr),
        ("definition_of_ready_status", .str b.definition_of_ready_status.toStr),
        ("missing_info", .str b.missing_info),
        ("acceptance_criteria", .arr (b.acceptance_criteria.map acToJson))]

/-- Serialize one decision note. -/
def decisionToJson (d : DecisionNote) : Json :=
  .obj [("topic", .str d.topic), ("decision_made", .str d.decision_made),
        ("rationale", .str d.rationale), ("owner", .str d.owner)]

/-- Serialize one risk/assumption entry. -/
def riskToJson (r : RiskAssumption) : Json :=
  .obj [("category", .str r.category.toStr), ("description", .str r.description),
        ("impact", .str r.impact.toStr),
        ("mitigation_strategy", .str r.mitigation_strategy)]

/-- Serialize one release-note entry. -/
def releaseToJson (r : ReleaseNoteEntry) : Json :=
  .obj [("feature_name", .str r.feature_name),
        ("value_statement", .str r.value_statement),
        ("audience", .str r.audience.toStr)]

/-- Serialize one scope alert. -/
def alertToJson (a : ScopeAlert) : Json :=
  .obj [("severity", .str a.severity.toStr), ("category", .str a.category.toStr),
        ("description", .str a.description), ("quote", .str a.quote),
        ("recommendation", .str a.recommendation),
        ("impacted_items", .arr (a.impacted_items.map Json.str))]

/-- Serialize the scope sentinel. -/
def sentinelToJson (s : ScopeSentinel) : Json :=
  .obj [("overall_risk", .str s.overall_risk.toStr), ("summary", .str s.summary),
        ("alerts", .arr (s.alerts.map alertToJson)), ("metrics", .obj s.metrics)]

/-- The field list of a serialized documentation package. -/
def packageFields (p : DocumentationPackage) : List (String × Json) :=
  [("meeting_summary", .str p.meeting_summary),
   ("backlog_items", .arr (p.backlog_items.map itemToJson)),
   ("decision_log", .arr (p.decision_log.map decisionToJson)),
   ("risk_register", .arr (p.risk_register.map riskToJson)),
   ("release_notes_draft", .arr (p.release_notes_draft.map releaseToJson)),
   ("scope_sentinel", sentinelToJson p.scope_sentinel)]

/-- Serialize a whole documentation package. -/
def packageToJson (p : DocumentationPackage) : Json := .obj (packageFields p)

/-! ## Response normalizer (`main.py` lines 189–198) -/

/-- Python's `s[:n]`: the first `n` characters of `s`. -/
def takeChars (n : Nat) (s : String) : String := ⟨s.data.take n⟩

/-- Whitespace characters stripped by Python's `str.strip()` (the ASCII set
this endpoint can encounter). -/
def isPyWs (c : Char) : Bool :=
  c = ' ' || c = '\t' || c = '\n' || c = '\r' || c = '\x0b' || c = '\x0c'

/-- Python's `s.strip()`: remove leading and trailing whitespace. -/
def pyStrip (s : String) : String :=
  ⟨((s.data.dropWhile isPyWs).reverse.dropWhile isPyWs).reverse⟩

/-- Python's `s.startswith(px)`. -/
def strStartsWith (s px : String) : Bool :=
  px.data.isPrefixOf s.data

/-- Python's `s.split('\n')` on the character list: split at every newline,
keeping empty segments. -/
def splitLines : List Char → List (List Char)
  | [] => [[]]
  | c :: cs =>
    if c = '\n' then [] :: splitLines cs
    else
      match splitLines cs with
      | l :: ls => (c :: l) :: ls
      | [] => [[c]]

/-- Python's `'\n'.join(...)` on character lists. -/
def joinLines : List (List Char) → List Char
  | [] => []
  | [l] => l
  | l :: ls => l ++ '\n' :: joinLines ls

/-- The response lines after Python's `split('\n')`. -/
def responseLines (t : String) : List (List Char) := splitLines t.data

/-- The fence-stripping step of the endpoint:
`response_text = response.text.strip()`, then if it starts with three
backticks, split on newlines and join all but the first and last lines
(`lines[1:-1]`). -/
def normalizeText (raw : String) : String :=
  let t := pyStrip raw
  if strStartsWith t "```" then
    ⟨joinLines (((responseLines t).drop 1).dropLast)⟩
  else t

/-! ## JSON parser (`json.loads`)

A recursive-descent parser on the character list, with a fuel argument for
termination.  It models the subset of `json.loads` this endpoint exercises:
objects, arrays, strings with the common escapes, integer numbers, `true`,
`false`, `null`, and insignificant whitespace.  (`\uXXXX` escapes and
fractional/exponent numbers are outside the model and are rejected.)
-/

/-- Skip insignificant JSON whitespace. -/
def skipWs : List Char → List Char
  | c :: cs =>
    if c = ' ' ∨ c = '\t' ∨ c = '\n' ∨ c = '\r' then skipWs cs else c :: cs
  | [] => []

/-- Parse the body of a JSON string literal (after the opening quote),
returning the decoded characters and the rest of the input. -/
def parseStringBody : Nat → List Char → Except String (List Char × List Char)
  | 0, _ => .error "Unterminated string"
  | _ + 1, [] => .error "Unterminated string starting at"
  | fuel + 1, c :: cs =>
    if c = '"' then .ok ([], cs)
    else if c = '\\' then
      match cs with
      | [] => .error "Unterminated string starting at"
      | e :: cs' =>
        let dec : Except String Char :=
          if e = '"' then .ok '"'
          else if e = '\\' then .ok '\\'
          else if e = '/' then .ok '/'
          else if e = 'b' then .ok '\x08'
          else if e = 'f' then .ok '\x0c'
          else if e = 'n' then .ok '\n'
          else if e = 'r' then .ok '\r'
          else if e = 't' then .ok '\t'
          else .error "Invalid escape"
        match dec with
        | .error msg => .error msg
        | .ok d =>
          match parseStringBody fuel cs' with
          | .error msg => .error msg
          | .ok (rest, remaining) => .ok (d :: rest, remaining)
    else
      match parseStringBody fuel cs with
      | .error msg => .error msg
      | .ok (rest, remaining) => .ok (c :: rest, remaining)

/-- Parse an unsigned decimal integer (at least one digit). -/
def parseDigits : List Char → Option (Nat × List Char)
  | cs =>
    let digits := cs.takeWhile (fun c => c.isDigit)
    let rest := cs.dropWhile (fun c => c.isDigit)
    if digits = [] then none
    else some (digits.foldl (fun acc c => acc * 10 + (c.toNat - 48)) 0, rest)

mutual
/-- Parse one JSON value. -/
def parseValue : Nat → List Char → Except String (Json × List Char)
  | 0, _ => .error "Expecting value: recursion limit"
  | fuel + 1, input =>
    match skipWs input with
    | [] => .error "Expecting value"
    | c :: cs =>
      if c = '"' then
        match parseStringBody (fuel + 1) cs with
        | .error msg => .error msg
        | .ok (chars, rest) => .ok (.str ⟨chars⟩, rest)
      else if c = '\x7b' then
        match skipWs cs with
        | '\x7d' :: rest => .ok (.obj [], rest)
        | cs' => parseMembers fuel cs'
      else if c = '[' then
        match skipWs cs with
        | ']' :: rest => .ok (.arr [], rest)
        | cs' => parseElements fuel cs'
      else if c = 't' then
        match cs with
        | 'r' :: 'u' :: 'e' :: rest => .ok (.bool true, rest)
        | _ => .error "Expecting value"
      else if c = 'f' then
        match cs with
        | 'a' :: 'l' :: 's' :: 'e' :: rest => .ok (.bool false, rest)
        | _ => .error "Expecting value"
      else if c = 'n' then
        match cs with
        | 'u' :: 'l' :: 'l' :: rest => .ok (.null, rest)
        | _ => .error "Expecting value"
      else if c = '-' then
        match parseDigits cs with
        | none => .error "Expecting value"
        | some (n, rest) => .ok (.num (-(n : Int)), rest)
      else if c.isDigit then
        match parseDigits (c :: cs) with
        | none => .error "Expecting value"
        | some (n, rest) => .ok (.num (n : Int), rest)
      else .error "Expecting value"

/-- Parse the members of an object after its opening brace (non-empty case). -/
def parseMembers : Nat → List Char → Except String (Json × List Char)
  | 0, _ => .error "Expecting value: recursion limit"
  | fuel + 1, input =>
    match skipWs input with
    | '"' :: cs =>
      match parseStringBody (fuel + 1) cs with
      | .error msg => .error msg
      | .ok (keyChars, afterKey) =>
        match skipWs afterKey with
        | ':' :: afterColon =>
          match parseValue fuel afterColon with
          | .error msg => .error msg
          | .ok (v, afterVal) =>
            match skipWs afterVal with
            | ',' :: afterComma =>
              match parseMembers fuel afterComma with
              | .error msg => .error msg
              | .ok (.obj fields, rest) => .ok (.obj ((⟨keyChars⟩, v) :: fields), rest)
              | .ok _ => .error "Expecting property name enclosed in double quotes"
            | '\x7d' :: rest => .ok (.obj [(⟨keyChars⟩, v)], rest)
            | _ => .error "Expecting ',' delimiter"
        | _ => .error "Expecting ':' delimiter"
    | _ => .error "Expecting property name enclosed in double quotes"

/-- Parse the elements of an array after its opening bracket (non-empty case). -/
def parseElements : Nat → List Char → Except String (Json × List Char)
  | 0, _ => .error "Expecting value: recursion limit"
  | fuel + 1, input =>
    match parseValue fuel input with
    | .error msg => .error msg
    | .ok (v, afterVal) =>
      match skipWs afterVal with
      | ',' :: afterComma =>
        match parseElements fuel afterComma with
        | .error msg => .error msg
        | .ok (.arr elems, rest) => .ok (.arr (v :: elems), rest)
        | .ok _ => .error "Expecting value"
      | ']' :: rest => .ok (.arr [v], rest)
      | _ => .error "Expecting ',' delimiter"
end

/-- `json.loads`: parse a complete JSON document; trailing non-whitespace is
an error (`Extra data`). -/
def parseJson (s : String) : Except String Json :=
  match parseValue (s.length + 16) s.data with
  | .error msg => .error msg
  | .ok (v, rest) =>
    match skipWs rest with
    | [] => .ok v
    | _ => .error "Extra data"

/-! ## Prompt builder (`main.py` lines 82-182) -/

/-- Lines of the instruction template before the embedded transcript (the f-string of `main.py` lines 82 to 101, braces unescaped). -/
def promptHeadLines : List String :=
  ["",
   "        You are a Senior Technical Product Manager with expertise in Agile/Scrum methodology.",
   "        Analyze the following meeting transcript and produce a formal Agile documentation package.",
   "",
   "        CRITICAL INSTRUCTIONS:",
   "        1. **Complexity (Not Points):** Do not assign Story Points. Instead, estimate T-Shirt size (XS, S, M, L, XL) based on implied complexity.",
   "        2. **Definition of Ready:** If a requirement is vague or lacks detail, mark it as \"Needs Refinement\" and specify what information is missing.",
   "        3. **Decisions:** Extract specific architectural, scope, or process decisions made during the meeting.",
   "        4. **Risks & Assumptions:** Identify technical risks, dependencies, and assumptions that could impact delivery.",
   "        5. **Release Notes:** Write value-focused, non-technical summaries suitable for stakeholders.",
   "        6. **SCOPE SENTINEL:** Analyze for scope creep indicators including:",
   "          - New features mentioned beyond original intent",
   "          - Requirements that grew in complexity during discussion",
   "          - Unclear boundaries that could expand later",
   "          - Timeline pressure combined with feature additions",
   "          - \"Just one more thing\" patterns",
   "          - Technical debt being added",
   "",
   "        TRANSCRIPT:",
   "        "]

/-- Template text before the transcript. -/
def promptHead : String := String.intercalate "\n" promptHeadLines

/-- Lines of the instruction template after the embedded transcript (`main.py` lines 101 to 182). -/
def promptTailLines : List String :=
  ["",
   "",
   "        You MUST respond with ONLY valid JSON in this EXACT structure (no markdown, no explanations):",
   "",
   "        \x7b",
   "          \"meeting_summary\": \"Brief 2-3 sentence summary of what was discussed\",",
   "          \"backlog_items\": [",
   "            \x7b",
   "              \"id\": \"PBI-001\",",
   "              \"title\": \"Short descriptive title\",",
   "              \"user_story\": \"As a [user type], I want [goal], so that [benefit]\",",
   "              \"priority\": \"Must Have\",",
   "              \"complexity\": \"M\",",
   "              \"definition_of_ready_status\": \"Ready for Sprint\",",
   "              \"missing_info\": \"\",",
   "              \"acceptance_criteria\": [",
   "                \x7b",
   "                  \"condition\": \"Specific testable condition\",",
   "                  \"test_type\": \"Functional\"",
   "                \x7d",
   "              ]",
   "            \x7d",
   "          ],",
   "          \"decision_log\": [",
   "            \x7b",
   "              \"topic\": \"Decision topic\",",
   "              \"decision_made\": \"What was decided\",",
   "              \"rationale\": \"Why this decision was made\",",
   "              \"owner\": \"Person responsible\"",
   "            \x7d",
   "          ],",
   "          \"risk_register\": [",
   "            \x7b  ",
   "              \"category\": \"Risk\",",
   "              \"description\": \"What could go wrong\",",
   "              \"impact\": \"High\",",
   "              \"mitigation_strategy\": \"How to address it\"",
   "            \x7d",
   "          ],",
   "          \"release_notes_draft\": [",
   "            \x7b",
   "              \"feature_name\": \"Feature name\",",
   "              \"value_statement\": \"Non-technical benefit to users\",",
   "              \"audience\": \"External Customers\"",
   "            \x7d",
   "          ],",
   "          \"scope_sentinel\": \x7b",
   "            \"overall_risk\": \"Medium\",",
   "            \"summary\": \"Brief assessment of scope health and creep indicators\",",
   "            \"alerts\": [",
   "              \x7b",
   "                \"severity\": \"Medium\",",
   "                \"category\": \"Feature Creep\",",
   "                \"description\": \"What scope creep was detected\",",
   "                \"quote\": \"Exact quote from transcript showing the issue\",",
   "                \"recommendation\": \"How to address this\",",
   "                \"impacted_items\": [\"PBI-001\", \"PBI-002\"]",
   "              \x7d",
   "            ],",
   "            \"metrics\": \x7b",
   "              \"features_discussed\": 5,",
   "              \"new_items_added\": 2,",
   "              \"complexity_increases\": 1,",
   "              \"unclear_requirements\": 3",
   "            \x7d",
   "          \x7d",
   "        \x7d",
   "",
   "        Valid values:",
   "        - priority: \"Must Have\", \"Should Have\", \"Could Have\", \"Won't Have\"",
   "        - complexity: \"XS\", \"S\", \"M\", \"L\", \"XL\", \"Needs Discussion\"",
   "        - definition_of_ready_status: \"Ready for Sprint\", \"Needs Refinement\"",
   "        - test_type: \"Functional\", \"UI/UX\", \"Security\", \"Performance\", \"Regression\"",
   "        - category (risk): \"Risk\", \"Assumption\", \"Dependency\"",
   "        - impact: \"High\", \"Medium\", \"Low\"",
   "        - audience: \"Internal Users\", \"External Customers\", \"Admins\", \"Developers\"",
   "        - severity (scope): \"Low\", \"Medium\", \"High\", \"Critical\"",
   "        - category (scope): \"Feature Creep\", \"Scope Expansion\", \"Timeline Pressure\", \"Unclear Requirements\", \"Technical Debt\", \"Resource Constraint\"",
   "        - overall_risk: \"Low\", \"Medium\", \"High\", \"Critical\"",
   "",
   "        RESPOND WITH ONLY THE JSON OBJECT, NO OTHER TEXT.",
   "        "]

/-- Template text after the transcript. -/
def promptTail : String := String.intercalate "\n" promptTailLines

/-- The prompt construction of the endpoint: the fixed template with the
request transcript interpolated verbatim. -/
def buildPrompt (transcript : String) : String :=
  promptHead ++ transcript ++ promptTail

/-! ## The `/api/generate` endpoint (`main.py` lines 53-214) -/

/-- An HTTP error as raised via `HTTPException(status_code=..., detail=...)`. -/
structure HTTPErr where
  status : Nat
  detail : String
deriving DecidableEq

/-- The upstream text-generation call: either the generated text or a raised
exception's message. -/
def UpstreamCall : Type := String → Except String String

/-- The generation endpoint.  `geminiConfigured` is the state of
`GEMINI_API_KEY`; `callModel` is the external `model.generate_content`
collaborator.  The second component records whether the upstream call was
attempted.  Failure mapping (from the source):

* key unconfigured → 500 `"GEMINI_API_KEY not configured"`;
* empty/whitespace transcript → 400 `"Transcript cannot be empty"`;
* upstream exception → 500 `"Error generating documentation: " ++ msg`
  (the generic `except Exception` handler);
* `json.JSONDecodeError` → 500 with the first 200 characters of the
  (fence-stripped) response text;
* pydantic `ValidationError` → 500 `"Error generating documentation: " ++ msg`
  (also the generic handler; `str(e)` embeds the offending values). -/
def generateDocumentation (geminiConfigured : Bool) (transcript : String)
    (callModel : UpstreamCall) : Except HTTPErr DocumentationPackage × Bool :=
  if !geminiConfigured then
    (.error ⟨500, "GEMINI_API_KEY not configured"⟩, false)
  else if pyStrip transcript = "" then
    (.error ⟨400, "Transcript cannot be empty"⟩, false)
  else
    match callModel (buildPrompt transcript) with
    | .error msg =>
      (.error ⟨500, "Error generating documentation: " ++ msg⟩, true)
    | .ok rawText =>
      let response_text := normalizeText rawText
      match parseJson response_text with
      | .error _ =>
        (.error ⟨500, "Failed to parse Gemini response as JSON. Response: " ++
                      takeChars 200 response_text ++ "..."⟩, true)
      | .ok data =>
        match validateDocumentationPackage data with
        | .error msg =>
          (.error ⟨500, "Error generating documentation: " ++ msg⟩, true)
        | .ok pkg => (.ok pkg, true)

/-! ## Sliding-window rate limiter -/

/-- Modelled from the spec: the sliding-window rate limiter of §4.2 is absent
from the source tree (only the specification describes it).  Per `clientKey`
it keeps an ordered list of admission timestamps; `limit` and `windowSeconds`
default to 5 and 3600. -/
structure RateLimiter where
  limit : Nat
  windowSeconds : Int
  store : List (String × List Int)

/-- Modelled from the spec: the per-client timestamp list (empty when the
client has no recorded admissions). -/
def getStamps : List (String × List Int) → String → List Int
  | [], _ => []
  | (k', l) :: rest, k => if k' = k then l else getStamps rest k

/-- Modelled from the spec: replace the per-client timestamp list. -/
def setStamps : List (String × List Int) → String → List Int → List (String × List Int)
  | [], k, l => [(k, l)]
  | (k', l') :: rest, k, l =>
    if k' = k then (k, l) :: rest else (k', l') :: setStamps rest k l

/-- Modelled from the spec: `admit(clientKey, now)` — drop all timestamps
older than `now - windowSeconds` (a timestamp `ts` is kept when
`now - windowSeconds ≤ ts`); if the remaining count is at least `limit`,
deny without recording; otherwise record `now` and allow. -/
def admitRequest (rl : RateLimiter) (clientKey : String) (now : Int) :
    Bool × RateLimiter :=
  let recent := (getStamps rl.store clientKey).filter
    (fun ts => decide (now - rl.windowSeconds ≤ ts))
  if rl.limit ≤ recent.length then
    (false, { rl with store := setStamps rl.store clientKey recent })
  else
    (true, { rl with store := setStamps rl.store clientKey (recent ++ [now]) })

/-- The demo policy: limit 5, window 3600 seconds, empty store. -/
def demoLimiter : RateLimiter := ⟨5, 3600, []⟩

/-! ## Inversion lemmas for the validator combinators -/

/-- A bind in `Except` succeeds exactly when both stages succeed. -/
theorem except_bind_ok {ε α β : Type} (x : Except ε α) (g : α → Except ε β) (b : β) :
    (x >>= g) = .ok b ↔ ∃ a, x = .ok a ∧ g a = .ok b := by
  cases x <;> simp [Bind.bind, Except.bind]

/-- A successful `reqField` returns the value stored under the key. -/
theorem reqField_ok {f : List (String × Json)} {k : String} {v : Json}
    (h : reqField f k = .ok v) : getField f k = some v := by
  unfold reqField at h
  cases hg : getField f k <;> rw [hg] at h <;> simp_all

/-- A successful `asStr` means the value was a JSON string. -/
theorem asStr_ok {k : String} {v : Json} {s : String}
    (h : asStr k v = .ok s) : v = .str s := by
  cases v <;> simp_all [asStr]

/-- A successful `asList` means the value was a JSON array. -/
theorem asList_ok {k : String} {v : Json} {l : List Json}
    (h : asList k v = .ok l) : v = .arr l := by
  cases v <;> simp_all [asList]

/-- A successful `asObj` means the value was a JSON object. -/
theorem asObj_ok {k : String} {v : Json} {l : List (String × Json)}
    (h : asObj k v = .ok l) : v = .obj l := by
  cases v <;> simp_all [asObj]

/-- A hit in a literal table is a member of the table. -/
theorem litLookup_mem {α : Type} {tbl : List (String × α)} {s : String} {a : α}
    (h : litLookup tbl s = some a) : (s, a) ∈ tbl := by
  induction tbl with
  | nil => simp [litLookup] at h
  | cons p rest ih =>
    obtain ⟨s', a'⟩ := p
    unfold litLookup at h
    by_cases hs : s' = s
    · subst hs
      simp at h
      subst h
      exact List.mem_cons_self _ _
    · rw [if_neg hs] at h
      exact List.mem_cons_of_mem _ (ih h)

/-- A successful literal validation means the value was one of the table's
strings. -/
theorem litOfJson_ok {α : Type} {tbl : List (String × α)} {k : String}
    {v : Json} {a : α} (h : litOfJson tbl k v = .ok a) :
    ∃ s, v = .str s ∧ (s, a) ∈ tbl := by
  cases v <;> simp_all [litOfJson]
  case str s =>
    cases hl : litLookup tbl s <;> rw [hl] at h <;> simp_all
    exact litLookup_mem hl

/-- A successful required-string field. -/
theorem reqStr_ok {f : List (String × Json)} {k : String} {s : String}
    (h : reqStr f k = .ok s) : getField f k = some (.str s) := by
  unfold reqStr at h
  rw [except_bind_ok] at h
  obtain ⟨v, hv, hs⟩ := h
  rw [← asStr_ok hs]
  exact reqField_ok hv

/-- A successful required-list field. -/
theorem reqList_ok {f : List (String × Json)} {k : String} {l : List Json}
    (h : reqList f k = .ok l) : getField f k = some (.arr l) := by
  unfold reqList at h
  rw [except_bind_ok] at h
  obtain ⟨v, hv, hs⟩ := h
  rw [← asList_ok hs]
  exact reqField_ok hv

/-- A successful required-dict field. -/
theorem reqObj_ok {f : List (String × Json)} {k : String} {l : List (String × Json)}
    (h : reqObj f k = .ok l) : getField f k = some (.obj l) := by
  unfold reqObj at h
  rw [except_bind_ok] at h
  obtain ⟨v, hv, hs⟩ := h
  rw [← asObj_ok hs]
  exact reqField_ok hv

/-- A successful required-literal field. -/
theorem reqLit_ok {α : Type} {tbl : List (String × α)} {f : List (String × Json)}
    {k : String} {a : α} (h : reqLit tbl f k = .ok a) :
    ∃ s, getField f k = some (.str s) ∧ (s, a) ∈ tbl := by
  unfold reqLit at h
  rw [except_bind_ok] at h
  obtain ⟨v, hv, hs⟩ := h
  obtain ⟨s, rfl, hmem⟩ := litOfJson_ok hs
  exact ⟨s, reqField_ok hv, hmem⟩

/-- Elementwise success of a successful `exceptMapM`. -/
theorem exceptMapM_ok_mem {α β : Type} {g : α → Except String β}
    {l : List α} {l' : List β} (h : exceptMapM g l = .ok l') :
    ∀ a ∈ l, ∃ b, g a = .ok b := by
  induction l generalizing l' with
  | nil => intro a ha; exact absurd ha (List.not_mem_nil a)
  | cons x xs ih =>
    intro a ha
    unfold exceptMapM at h
    rw [except_bind_ok] at h
    obtain ⟨b, hb, h⟩ := h
    rw [except_bind_ok] at h
    obtain ⟨bs, hbs, _⟩ := h
    rcases List.mem_cons.mp ha with rfl | ha'
    · exact ⟨b, hb⟩
    · exact ih hbs a ha'

/-- Inversion of a successful acceptance-criterion validation. -/
theorem validateAC_ok_inv {f : List (String × Json)} {a : AcceptanceCriteria}
    (h : validateAcceptanceCriteria (.obj f) = .ok a) :
    getField f "condition" = some (.str a.condition) ∧
    ∃ s, getField f "test_type" = some (.str s) ∧ (s, a.test_type) ∈ TestType.table := by
  unfold validateAcceptanceCriteria at h
  rw [except_bind_ok] at h
  obtain ⟨c, hc, h⟩ := h
  rw [except_bind_ok] at h
  obtain ⟨t, ht, h⟩ := h
  cases h
  exact ⟨reqStr_ok hc, reqLit_ok ht⟩

/-- Inversion of a successful backlog-item validation. -/
theorem validateItem_ok_inv {f : List (String × Json)} {b : BacklogItem}
    (h : validateBacklogItem (.obj f) = .ok b) :
    getField f "id" = some (.str b.id) ∧
    getField f "title" = some (.str b.title) ∧
    getField f "user_story" = some (.str b.user_story) ∧
    (∃ s, getField f "priority" = some (.str s) ∧ (s, b.priority) ∈ Priority.table) ∧
    (∃ s, getField f "complexity" = some (.str s) ∧ (s, b.complexity) ∈ Complexity.table) ∧
    (∃ s, getField f "definition_of_ready_status" = some (.str s) ∧
      (s, b.definition_of_ready_status) ∈ ReadyStatus.table) ∧
    getField f "missing_info" = some (.str b.missing_info) ∧
    ∃ elems, getField f "acceptance_criteria" = some (.arr elems) ∧
      exceptMapM validateAcceptanceCriteria elems = .ok b.acceptance_criteria := by
  unfold validateBacklogItem at h
  rw [except_bind_ok] at h
  obtain ⟨i, hi, h⟩ := h
  rw [except_bind_ok] at h
  obtain ⟨ti, hti, h⟩ := h
  rw [except_bind_ok] at h
  obtain ⟨us, hus, h⟩ := h
  rw [except_bind_ok] at h
  obtain ⟨pr, hpr, h⟩ := h
  rw [except_bind_ok] at h
  obtain ⟨cx, hcx, h⟩ := h
  rw [except_bind_ok] at h
  obtain ⟨dr, hdr, h⟩ := h
  rw [except_bind_ok] at h
  obtain ⟨mi, hmi, h⟩ := h
  rw [except_bind_ok] at h
  obtain ⟨aj, haj, h⟩ := h
  rw [except_bind_ok] at h
  obtain ⟨ac, hac, h⟩ := h
  cases h
  exact ⟨reqStr_ok hi, reqStr_ok hti, reqStr_ok hus, reqLit_ok hpr,
    reqLit_ok hcx, reqLit_ok hdr, reqStr_ok hmi, aj, reqList_ok haj, hac⟩

/-- Inversion of a successful decision-note validation. -/
theorem validateDecision_ok_inv {f : List (String × Json)} {d : DecisionNote}
    (h : validateDecisionNote (.obj f) = .ok d) :
    getField f "topic" = some (.str d.topic) ∧
    getField f "decision_made" = some (.str d.decision_made) ∧
    getField f "rationale" = some (.str d.rationale) ∧
    getField f "owner" = some (.str d.owner) := by
  unfold validateDecisionNote at h
  rw [except_bind_ok] at h
  obtain ⟨a1, h1, h⟩ := h
  rw [except_bind_ok] at h
  obtain ⟨a2, h2, h⟩ := h
  rw [except_bind_ok] at h
  obtain ⟨a3, h3, h⟩ := h
  rw [except_bind_ok] at h
  obtain ⟨a4, h4, h⟩ := h
  cases h
  exact ⟨reqStr_ok h1, reqStr_ok h2, reqStr_ok h3, reqStr_ok h4⟩

/-- Inversion of a successful risk/assumption validation. -/
theorem validateRisk_ok_inv {f : List (String × Json)} {r : RiskAssumption}
    (h : validateRiskAssumption (.obj f) = .ok r) :
    (∃ s, getField f "category" = some (.str s) ∧ (s, r.category) ∈ RiskCategory.table) ∧
    getField f "description" = some (.str r.description) ∧
    (∃ s, getField f "impact" = some (.str s) ∧ (s, r.impact) ∈ Impact.table) ∧
    getField f "mitigation_strategy" = some (.str r.mitigation_strategy) := by
  unfold validateRiskAssumption at h
  rw [except_bind_ok] at h
  obtain ⟨a1, h1, h⟩ := h
  rw [except_bind_ok] at h
  obtain ⟨a2, h2, h⟩ := h
  rw [except_bind_ok] at h
  obtain ⟨a3, h3, h⟩ := h
  rw [except_bind_ok] at h
  obtain ⟨a4, h4, h⟩ := h
  cases h
  exact ⟨reqLit_ok h1, reqStr_ok h2, reqLit_ok h3, reqStr_ok h4⟩

/-- Inversion of a successful release-note validation. -/
theorem validateRelease_ok_inv {f : List (String × Json)} {r : ReleaseNoteEntry}
    (h : validateReleaseNoteEntry (.obj f) = .ok r) :
    getField f "feature_name" = some (.str r.feature_name) ∧
    getField f "value_statement" = some (.str r.value_statement) ∧
    ∃ s, getField f "audience" = some (.str s) ∧ (s, r.audience) ∈ Audience.table := by
  unfold validateReleaseNoteEntry at h
  rw [except_bind_ok] at h
  obtain ⟨a1, h1, h⟩ := h
  rw [except_bind_ok] at h
  obtain ⟨a2, h2, h⟩ := h
  rw [except_bind_ok] at h
  obtain ⟨a3, h3, h⟩ := h
  cases h
  exact ⟨reqStr_ok h1, reqStr_ok h2, reqLit_ok h3⟩

/-- Inversion of a successful scope-alert validation. -/
theorem validateAlert_ok_inv {f : List (String × Json)} {a : ScopeAlert}
    (h : validateScopeAlert (.obj f) = .ok a) :
    (∃ s, getField f "severity" = some (.str s) ∧ (s, a.severity) ∈ Severity.table) ∧
    (∃ s, getField f "category" = some (.str s) ∧ (s, a.category) ∈ ScopeCategory.table) ∧
    getField f "description" = some (.str a.description) ∧
    getField f "quote" = some (.str a.quote) ∧
    getField f "recommendation" = some (.str a.recommendation) ∧
    ∃ elems, getField f "impacted_items" = some (.arr elems) ∧
      exceptMapM (asStr "impacted_items") elems = .ok a.impacted_items := by
  unfold validateScopeAlert at h
  rw [except_bind_ok] at h
  obtain ⟨a1, h1, h⟩ := h
  rw [except_bind_ok] at h
  obtain ⟨a2, h2, h⟩ := h
  rw [except_bind_ok] at h
  obtain ⟨a3, h3, h⟩ := h
  rw [except_bind_ok] at h
  obtain ⟨a4, h4, h⟩ := h
  rw [except_bind_ok] at h
  obtain ⟨a5, h5, h⟩ := h
  rw [except_bind_ok] at h
  obtain ⟨a6, h6, h⟩ := h
  rw [except_bind_ok] at h
  obtain ⟨a7, h7, h⟩ := h
  cases h
  exact ⟨reqLit_ok h1, reqLit_ok h2, reqStr_ok h3, reqStr_ok h4, reqStr_ok h5,
    a6, reqList_ok h6, h7⟩

/-- Inversion of a successful scope-sentinel validation. -/
theorem validateSentinel_ok_inv {f : List (String × Json)} {s : ScopeSentinel}
    (h : validateScopeSentinel (.obj f) = .ok s) :
    (∃ r, getField f "overall_risk" = some (.str r) ∧ (r, s.overall_risk) ∈ Severity.table) ∧
    getField f "summary" = some (.str s.summary) ∧
    (∃ elems, getField f "alerts" = some (.arr elems) ∧
      exceptMapM validateScopeAlert elems = .ok s.alerts) ∧
    getField f "metrics" = some (.obj s.metrics) := by
  unfold validateScopeSentinel at h
  rw [except_bind_ok] at h
  obtain ⟨a1, h1, h⟩ := h
  rw [except_bind_ok] at h
  obtain ⟨a2, h2, h⟩ := h
  rw [except_bind_ok] at h
  obtain ⟨a3, h3, h⟩ := h
  rw [except_bind_ok] at h
  obtain ⟨a4, h4, h⟩ := h
  rw [except_bind_ok] at h
  obtain ⟨a5, h5, h⟩ := h
  cases h
  exact ⟨reqLit_ok h1, reqStr_ok h2, ⟨a3, reqList_ok h3, h4⟩, reqObj_ok h5⟩

/-- Inversion of a successful package validation. -/
theorem validatePackage_ok_inv {f : List (String × Json)} {p : DocumentationPackage}
    (h : validateDocumentationPackage (.obj f) = .ok p) :
    getField f "meeting_summary" = some (.str p.meeting_summary) ∧
    (∃ elems, getField f "backlog_items" = some (.arr elems) ∧
      exceptMapM validateBacklogItem elems = .ok p.backlog_items) ∧
    (∃ elems, getField f "decision_log" = some (.arr elems) ∧
      exceptMapM validateDecisionNote elems = .ok p.decision_log) ∧
    (∃ elems, getField f "risk_register" = some (.arr elems) ∧
      exceptMapM validateRiskAssumption elems = .ok p.risk_register) ∧
    (∃ elems, getField f "release_notes_draft" = some (.arr elems) ∧
      exceptMapM validateReleaseNoteEntry elems = .ok p.release_notes_draft) ∧
    ∃ v, getField f "scope_sentinel" = some v ∧
      validateScopeSentinel v = .ok p.scope_sentinel := by
  unfold validateDocumentationPackage at h
  rw [except_bind_ok] at h
  obtain ⟨a1, h1, h⟩ := h
  rw [except_bind_ok] at h
  obtain ⟨a2, h2, h⟩ := h
  rw [except_bind_ok] at h
  obtain ⟨a3, h3, h⟩ := h
  rw [except_bind_ok] at h
  obtain ⟨a4, h4, h⟩ := h
  rw [except_bind_ok] at h
  obtain ⟨a5, h5, h⟩ := h
  rw [except_bind_ok] at h
  obtain ⟨a6, h6, h⟩ := h
  rw [except_bind_ok] at h
  obtain ⟨a7, h7, h⟩ := h
  rw [except_bind_ok] at h
  obtain ⟨a8, h8, h⟩ := h
  rw [except_bind_ok] at h
  obtain ⟨a9, h9, h⟩ := h
  rw [except_bind_ok] at h
  obtain ⟨a10, h10, h⟩ := h
  rw [except_bind_ok] at h
  obtain ⟨a11, h11, h⟩ := h
  cases h
  exact ⟨reqStr_ok h1, ⟨a2, reqList_ok h2, h3⟩, ⟨a4, reqList_ok h4, h5⟩,
    ⟨a6, reqList_ok h6, h7⟩, ⟨a8, reqList_ok h8, h9⟩,
    a10, reqField_ok h10, h11⟩

/-! ## Bad inputs: missing required fields, out-of-domain literals, type
mismatches (the three rejection categories of the schema contract) -/

/-- Declared keys of `AcceptanceCriteria`. -/
def acKeys : List String := ["condition", "test_type"]

/-- Declared keys of `BacklogItem`. -/
def itemKeys : List String :=
  ["id", "title", "user_story", "priority", "complexity",
   "definition_of_ready_status", "missing_info", "acceptance_criteria"]

/-- Declared keys of `DecisionNote`. -/
def decisionKeys : List String := ["topic", "decision_made", "rationale", "owner"]

/-- Declared keys of `RiskAssumption`. -/
def riskKeys : List String := ["category", "description", "impact", "mitigation_strategy"]

/-- Declared keys of `ReleaseNoteEntry`. -/
def releaseKeys : List String := ["feature_name", "value_statement", "audience"]

/-- Declared keys of `ScopeAlert`. -/
def alertKeys : List String :=
  ["severity", "category", "description", "quote", "recommendation", "impacted_items"]

/-- Declared keys of `ScopeSentinel`. -/
def sentinelKeys : List String := ["overall_risk", "summary", "alerts", "metrics"]

/-- Declared keys of `DocumentationPackage`. -/
def packageKeys : List String :=
  ["meeting_summary", "backlog_items", "decision_log", "risk_register",
   "release_notes_draft", "scope_sentinel"]

/-- An acceptance-criterion input that the schema must reject: not a dict,
missing a required field, a non-string `condition`, or a `test_type` outside
its literal set. -/
inductive BadAcceptanceCriteria : Json → Prop where
  | notDict (j : Json) : (∀ f, j ≠ .obj f) → BadAcceptanceCriteria j
  | missingField (f : List (String × Json)) (k : String) :
      k ∈ acKeys → getField f k = none → BadAcceptanceCriteria (.obj f)
  | conditionNotStr (f : List (String × Json)) (v : Json) :
      getField f "condition" = some v → (∀ s, v ≠ .str s) →
      BadAcceptanceCriteria (.obj f)
  | testTypeOut (f : List (String × Json)) (v : Json) :
      getField f "test_type" = some v → (∀ p ∈ TestType.table, v ≠ .str p.1) →
      BadAcceptanceCriteria (.obj f)

/-- A backlog-item input that the schema must reject. -/
inductive BadBacklogItem : Json → Prop where
  | notDict (j : Json) : (∀ f, j ≠ .obj f) → BadBacklogItem j
  | missingField (f : List (String × Json)) (k : String) :
      k ∈ itemKeys → getField f k = none → BadBacklogItem (.obj f)
  | strFieldNotStr (f : List (String × Json)) (k : String) (v : Json) :
      k ∈ ["id", "title", "user_story", "missing_info"] →
      getField f k = some v → (∀ s, v ≠ .str s) → BadBacklogItem (.obj f)
  | priorityOut (f : List (String × Json)) (v : Json) :
      getField f "priority" = some v → (∀ p ∈ Priority.table, v ≠ .str p.1) →
      BadBacklogItem (.obj f)
  | complexityOut (f : List (String × Json)) (v : Json) :
      getField f "complexity" = some v → (∀ p ∈ Complexity.table, v ≠ .str p.1) →
      BadBacklogItem (.obj f)
  | dorOut (f : List (String × Json)) (v : Json) :
      getField f "definition_of_ready_status" = some v →
      (∀ p ∈ ReadyStatus.table, v ≠ .str p.1) → BadBacklogItem (.obj f)
  | acNotList (f : List (String × Json)) (v : Json) :
      getField f "acceptance_criteria" = some v → (∀ l, v ≠ .arr l) →
      BadBacklogItem (.obj f)
  | acElemBad (f : List (String × Json)) (elems : List Json) (e : Json) :
      getField f "acceptance_criteria" = some (.arr elems) → e ∈ elems →
      BadAcceptanceCriteria e → BadBacklogItem (.obj f)

/-- A decision-note input that the schema must reject. -/
inductive BadDecisionNote : Json → Prop where
  | notDict (j : Json) : (∀ f, j ≠ .obj f) → BadDecisionNote j
  | missingField (f : List (String × Json)) (k : String) :
      k ∈ decisionKeys → getField f k = none → BadDecisionNote (.obj f)
  | strFieldNotStr (f : List (String × Json)) (k : String) (v : Json) :
      k ∈ decisionKeys → getField f k = some v → (∀ s, v ≠ .str s) →
      BadDecisionNote (.obj f)

/-- A risk/assumption input that the schema must reject. -/
inductive BadRiskAssumption : Json → Prop where
  | notDict (j : Json) : (∀ f, j ≠ .obj f) → BadRiskAssumption j
  | missingField (f : List (String × Json)) (k : String) :
      k ∈ riskKeys → getField f k = none → BadRiskAssumption (.obj f)
  | strFieldNotStr (f : List (String × Json)) (k : String) (v : Json) :
      k ∈ ["description", "mitigation_strategy"] →
      getField f k = some v → (∀ s, v ≠ .str s) → BadRiskAssumption (.obj f)
  | categoryOut (f : List (String × Json)) (v : Json) :
      getField f "category" = some v → (∀ p ∈ RiskCategory.table, v ≠ .str p.1) →
      BadRiskAssumption (.obj f)
  | impactOut (f : List (String × Json)) (v : Json) :
      getField f "impact" = some v → (∀ p ∈ Impact.table, v ≠ .str p.1) →
      BadRiskAssumption (.obj f)

/-- A release-note input that the schema must reject. -/
inductive BadReleaseNoteEntry : Json → Prop where
  | notDict (j : Json) : (∀ f, j ≠ .obj f) → BadReleaseNoteEntry j
  | missingField (f : List (String × Json)) (k : String) :
      k ∈ releaseKeys → getField f k = none → BadReleaseNoteEntry (.obj f)
  | strFieldNotStr (f : List (String × Json)) (k : String) (v : Json) :
      k ∈ ["feature_name", "value_statement"] →
      getField f k = some v → (∀ s, v ≠ .str s) → BadReleaseNoteEntry (.obj f)
  | audienceOut (f : List (String × Json)) (v : Json) :
      getField f "audience" = some v → (∀ p ∈ Audience.table, v ≠ .str p.1) →
      BadReleaseNoteEntry (.obj f)

/-- A scope-alert input that the schema must reject. -/
inductive BadScopeAlert : Json → Prop where
  | notDict (j : Json) : (∀ f, j ≠ .obj f) → BadScopeAlert j
  | missingField (f : List (String × Json)) (k : String) :
      k ∈ alertKeys → getField f k = none → BadScopeAlert (.obj f)
  | strFieldNotStr (f : List (String × Json)) (k : String) (v : Json) :
      k ∈ ["description", "quote", "recommendation"] →
      getField f k = some v → (∀ s, v ≠ .str s) → BadScopeAlert (.obj f)
  | severityOut (f : List (String × Json)) (v : Json) :
      getField f "severity" = some v → (∀ p ∈ Severity.table, v ≠ .str p.1) →
      BadScopeAlert (.obj f)
  | categoryOut (f : List (String × Json)) (v : Json) :
      getField f "category" = some v → (∀ p ∈ ScopeCategory.table, v ≠ .str p.1) →
      BadScopeAlert (.obj f)
  | itemsNotList (f : List (String × Json)) (v : Json) :
      getField f "impacted_items" = some v → (∀ l, v ≠ .arr l) →
      BadScopeAlert (.obj f)
  | itemIdNotStr (f : List (String × Json)) (elems : List Json) (e : Json) :
      getField f "impacted_items" = some (.arr elems) → e ∈ elems →
      (∀ s, e ≠ .str s) → BadScopeAlert (.obj f)

/-- A scope-sentinel input that the schema must reject. -/
inductive BadScopeSentinel : Json → Prop where
  | notDict (j : Json) : (∀ f, j ≠ .obj f) → BadScopeSentinel j
  | missingField (f : List (String × Json)) (k : String) :
      k ∈ sentinelKeys → getField f k = none → BadScopeSentinel (.obj f)
  | summaryNotStr (f : List (String × Json)) (v : Json) :
      getField f "summary" = some v → (∀ s, v ≠ .str s) → BadScopeSentinel (.obj f)
  | overallRiskOut (f : List (String × Json)) (v : Json) :
      getField f "overall_risk" = some v → (∀ p ∈ Severity.table, v ≠ .str p.1) →
      BadScopeSentinel (.obj f)
  | alertsNotList (f : List (String × Json)) (v : Json) :
      getField f "alerts" = some v → (∀ l, v ≠ .arr l) → BadScopeSentinel (.obj f)
  | metricsNotDict (f : List (String × Json)) (v : Json) :
      getField f "metrics" = some v → (∀ l, v ≠ .obj l) → BadScopeSentinel (.obj f)
  | alertBad (f : List (String × Json)) (elems : List Json) (e : Json) :
      getField f "alerts" = some (.arr elems) → e ∈ elems → BadScopeAlert e →
      BadScopeSentinel (.obj f)

/-- A package input that the schema must reject: missing required fields,
out-of-domain literal values, or type mismatches, at the top level or nested
inside any entity. -/
inductive BadPackageInput : Json → Prop where
  | notDict (j : Json) : (∀ f, j ≠ .obj f) → BadPackageInput j
  | missingField (f : List (String × Json)) (k : String) :
      k ∈ packageKeys → getField f k = none → BadPackageInput (.obj f)
  | summaryNotStr (f : List (String × Json)) (v : Json) :
      getField f "meeting_summary" = some v → (∀ s, v ≠ .str s) →
      BadPackageInput (.obj f)
  | listFieldNotList (f : List (String × Json)) (k : String) (v : Json) :
      k ∈ ["backlog_items", "decision_log", "risk_register", "release_notes_draft"] →
      getField f k = some v → (∀ l, v ≠ .arr l) → BadPackageInput (.obj f)
  | itemBad (f : List (String × Json)) (elems : List Json) (e : Json) :
      getField f "backlog_items" = some (.arr elems) → e ∈ elems →
      BadBacklogItem e → BadPackageInput (.obj f)
  | decisionBad (f : List (String × Json)) (elems : List Json) (e : Json) :
      getField f "decision_log" = some (.arr elems) → e ∈ elems →
      BadDecisionNote e → BadPackageInput (.obj f)
  | riskBad (f : List (String × Json)) (elems : List Json) (e : Json) :
      getField f "risk_register" = some (.arr elems) → e ∈ elems →
      BadRiskAssumption e → BadPackageInput (.obj f)
  | releaseBad (f : List (String × Json)) (elems : List Json) (e : Json) :
      getField f "release_notes_draft" = some (.arr elems) → e ∈ elems →
      BadReleaseNoteEntry e → BadPackageInput (.obj f)
  | sentinelBad (f : List (String × Json)) (v : Json) :
      getField f "scope_sentinel" = some v → BadScopeSentinel v →
      BadPackageInput (.obj f)

/-- A successful acceptance-criterion validation implies the input was a dict. -/
theorem validateAC_obj_of_ok {j : Json} {a : AcceptanceCriteria}
    (h : validateAcceptanceCriteria j = .ok a) : ∃ f, j = .obj f := by
  cases j <;> simp_all [validateAcceptanceCriteria]

/-- Bad acceptance-criterion inputs never validate. -/
theorem badAC_not_ok {j : Json} (hb : BadAcceptanceCriteria j)
    (a : AcceptanceCriteria) : validateAcceptanceCriteria j ≠ .ok a := by
  intro hok
  cases hb with
  | notDict _ hno =>
    obtain ⟨f, rfl⟩ := validateAC_obj_of_ok hok
    exact hno f rfl
  | missingField f k hk hnone =>
    obtain ⟨h1, s, h2, _⟩ := validateAC_ok_inv hok
    simp only [acKeys, List.mem_cons, List.not_mem_nil, or_false] at hk
    rcases hk with rfl | rfl
    · rw [hnone] at h1; cases h1
    · rw [hnone] at h2; cases h2
  | conditionNotStr f v hv hns =>
    obtain ⟨h1, _⟩ := validateAC_ok_inv hok
    rw [hv] at h1
    simp at h1
    exact hns _ h1
  | testTypeOut f v hv hout =>
    obtain ⟨_, s, h2, hmem⟩ := validateAC_ok_inv hok
    rw [hv] at h2
    simp at h2
    exact hout _ hmem (by rw [h2])

/-- A successful backlog-item validation implies the input was a dict. -/
theorem validateItem_obj_of_ok {j : Json} {b : BacklogItem}
    (h : validateBacklogItem j = .ok b) : ∃ f, j = .obj f := by
  cases j <;> simp_all [validateBacklogItem]

/-- Bad backlog-item inputs never validate. -/
theorem badItem_not_ok {j : Json} (hb : BadBacklogItem j)
    (b : BacklogItem) : validateBacklogItem j ≠ .ok b := by
  intro hok
  cases hb with
  | notDict _ hno =>
    obtain ⟨f, rfl⟩ := validateItem_obj_of_ok hok
    exact hno f rfl
  | missingField f k hk hnone =>
    obtain ⟨hid, htl, hus, ⟨sp, hp, _⟩, ⟨sc, hc, _⟩, ⟨sd, hd, _⟩, hmi,
      elems, hac, _⟩ := validateItem_ok_inv hok
    simp only [itemKeys, List.mem_cons, List.not_mem_nil, or_false] at hk
    rcases hk with rfl | rfl | rfl | rfl | rfl | rfl | rfl | rfl
    · rw [hnone] at hid; cases hid
    · rw [hnone] at htl; cases htl
    · rw [hnone] at hus; cases hus
    · rw [hnone] at hp; cases hp
    · rw [hnone] at hc; cases hc
    · rw [hnone] at hd; cases hd
    · rw [hnone] at hmi; cases hmi
    · rw [hnone] at hac; cases hac
  | strFieldNotStr f k v hk hv hns =>
    obtain ⟨hid, htl, hus, _, _, _, hmi, _⟩ := validateItem_ok_inv hok
    simp only [List.mem_cons, List.not_mem_nil, or_false] at hk
    rcases hk with rfl | rfl | rfl | rfl
    · rw [hv] at hid; simp at hid; exact hns _ hid
    · rw [hv] at htl; simp at htl; exact hns _ htl
    · rw [hv] at hus; simp at hus; exact hns _ hus
    · rw [hv] at hmi; simp at hmi; exact hns _ hmi
  | priorityOut f v hv hout =>
    obtain ⟨_, _, _, ⟨sp, hp, hpmem⟩, _⟩ := validateItem_ok_inv hok
    rw [hv] at hp; simp at hp
    exact hout _ hpmem (by rw [hp])
  | complexityOut f v hv hout =>
    obtain ⟨_, _, _, _, ⟨sc, hc, hcmem⟩, _⟩ := validateItem_ok_inv hok
    rw [hv] at hc; simp at hc
    exact hout _ hcmem (by rw [hc])
  | dorOut f v hv hout =>
    obtain ⟨_, _, _, _, _, ⟨sd, hd, hdmem⟩, _⟩ := validateItem_ok_inv hok
    rw [hv] at hd; simp at hd
    exact hout _ hdmem (by rw [hd])
  | acNotList f v hv hns =>
    obtain ⟨_, _, _, _, _, _, _, elems, hac, _⟩ := validateItem_ok_inv hok
    rw [hv] at hac; simp at hac
    exact hns _ hac
  | acElemBad f elems e hvac he hbad =>
    obtain ⟨_, _, _, _, _, _, _, elems', hac, hmapM⟩ := validateItem_ok_inv hok
    rw [hvac] at hac
    simp only [Option.some.injEq, Json.arr.injEq] at hac
    subst hac
    obtain ⟨x, hx⟩ := exceptMapM_ok_mem hmapM e he
    exact badAC_not_ok hbad x hx

/-- A successful decision-note validation implies the input was a dict. -/
theorem validateDecision_obj_of_ok {j : Json} {d : DecisionNote}
    (h : validateDecisionNote j = .ok d) : ∃ f, j = .obj f := by
  cases j <;> simp_all [validateDecisionNote]

/-- Bad decision-note inputs never validate. -/
theorem badDecision_not_ok {j : Json} (hb : BadDecisionNote j)
    (d : DecisionNote) : validateDecisionNote j ≠ .ok d := by
  intro hok
  cases hb with
  | notDict _ hno =>
    obtain ⟨f, rfl⟩ := validateDecision_obj_of_ok hok
    exact hno f rfl
  | missingField f k hk hnone =>
    obtain ⟨h1, h2, h3, h4⟩ := validateDecision_ok_inv hok
    simp only [decisionKeys, List.mem_cons, List.not_mem_nil, or_false] at hk
    rcases hk with rfl | rfl | rfl | rfl
    · rw [hnone] at h1; cases h1
    · rw [hnone] at h2; cases h2
    · rw [hnone] at h3; cases h3
    · rw [hnone] at h4; cases h4
  | strFieldNotStr f k v hk hv hns =>
    obtain ⟨h1, h2, h3, h4⟩ := validateDecision_ok_inv hok
    simp only [decisionKeys, List.mem_cons, List.not_mem_nil, or_false] at hk
    rcases hk with rfl | rfl | rfl | rfl
    · rw [hv] at h1; simp at h1; exact hns _ h1
    · rw [hv] at h2; simp at h2; exact hns _ h2
    · rw [hv] at h3; simp at h3; exact hns _ h3
    · rw [hv] at h4; simp at h4; exact hns _ h4

/-- A successful risk/assumption validation implies the input was a dict. -/
theorem validateRisk_obj_of_ok {j : Json} {r : RiskAssumption}
    (h : validateRiskAssumption j = .ok r) : ∃ f, j = .obj f := by
  cases j <;> simp_all [validateRiskAssumption]

/-- Bad risk/assumption inputs never validate. -/
theorem badRisk_not_ok {j : Json} (hb : BadRiskAssumption j)
    (r : RiskAssumption) : validateRiskAssumption j ≠ .ok r := by
  intro hok
  cases hb with
  | notDict _ hno =>
    obtain ⟨f, rfl⟩ := validateRisk_obj_of_ok hok
    exact hno f rfl
  | missingField f k hk hnone =>
    obtain ⟨⟨sc, hc, _⟩, h2, ⟨si, hi, _⟩, h4⟩ := validateRisk_ok_inv hok
    simp only [riskKeys, List.mem_cons, List.not_mem_nil, or_false] at hk
    rcases hk with rfl | rfl | rfl | rfl
    · rw [hnone] at hc; cases hc
    · rw [hnone] at h2; cases h2
    · rw [hnone] at hi; cases hi
    · rw [hnone] at h4; cases h4
  | strFieldNotStr f k v hk hv hns =>
    obtain ⟨_, h2, _, h4⟩ := validateRisk_ok_inv hok
    simp only [List.mem_cons, List.not_mem_nil, or_false] at hk
    rcases hk with rfl | rfl
    · rw [hv] at h2; simp at h2; exact hns _ h2
    · rw [hv] at h4; simp at h4; exact hns _ h4
  | categoryOut f v hv hout =>
    obtain ⟨⟨sc, hc, hcmem⟩, _⟩ := validateRisk_ok_inv hok
    rw [hv] at hc; simp at hc
    exact hout _ hcmem (by rw [hc])
  | impactOut f v hv hout =>
    obtain ⟨_, _, ⟨si, hi, himem⟩, _⟩ := validateRisk_ok_inv hok
    rw [hv] at hi; simp at hi
    exact hout _ himem (by rw [hi])

/-- A successful release-note validation implies the input was a dict. -/
theorem validateRelease_obj_of_ok {j : Json} {r : ReleaseNoteEntry}
    (h : validateReleaseNoteEntry j = .ok r) : ∃ f, j = .obj f := by
  cases j <;> simp_all [validateReleaseNoteEntry]

/-- Bad release-note inputs never validate. -/
theorem badRelease_not_ok {j : Json} (hb : BadReleaseNoteEntry j)
    (r : ReleaseNoteEntry) : validateReleaseNoteEntry j ≠ .ok r := by
  intro hok
  cases hb with
  | notDict _ hno =>
    obtain ⟨f, rfl⟩ := validateRelease_obj_of_ok hok
    exact hno f rfl
  | missingField f k hk hnone =>
    obtain ⟨h1, h2, sa, ha, _⟩ := validateRelease_ok_inv hok
    simp only [releaseKeys, List.mem_cons, List.not_mem_nil, or_false] at hk
    rcases hk with rfl | rfl | rfl
    · rw [hnone] at h1; cases h1
    · rw [hnone] at h2; cases h2
    · rw [hnone] at ha; cases ha
  | strFieldNotStr f k v hk hv hns =>
    obtain ⟨h1, h2, _⟩ := validateRelease_ok_inv hok
    simp only [List.mem_cons, List.not_mem_nil, or_false] at hk
    rcases hk with rfl | rfl
    · rw [hv] at h1; simp at h1; exact hns _ h1
    · rw [hv] at h2; simp at h2; exact hns _ h2
  | audienceOut f v hv hout =>
    obtain ⟨_, _, sa, ha, hamem⟩ := validateRelease_ok_inv hok
    rw [hv] at ha; simp at ha
    exact hout _ hamem (by rw [ha])

/-- A successful scope-alert validation implies the input was a dict. -/
theorem validateAlert_obj_of_ok {j : Json} {a : ScopeAlert}
    (h : validateScopeAlert j = .ok a) : ∃ f, j = .obj f := by
  cases j <;> simp_all [validateScopeAlert]

/-- Bad scope-alert inputs never validate. -/
theorem badAlert_not_ok {j : Json} (hb : BadScopeAlert j)
    (a : ScopeAlert) : validateScopeAlert j ≠ .ok a := by
  intro hok
  cases hb with
  | notDict _ hno =>
    obtain ⟨f, rfl⟩ := validateAlert_obj_of_ok hok
    exact hno f rfl
  | missingField f k hk hnone =>
    obtain ⟨⟨ss, hs, _⟩, ⟨sc, hc, _⟩, h3, h4, h5, elems, hii, _⟩ :=
      validateAlert_ok_inv hok
    simp only [alertKeys, List.mem_cons, List.not_mem_nil, or_false] at hk
    rcases hk with rfl | rfl | rfl | rfl | rfl | rfl
    · rw [hnone] at hs; cases hs
    · rw [hnone] at hc; cases hc
    · rw [hnone] at h3; cases h3
    · rw [hnone] at h4; cases h4
    · rw [hnone] at h5; cases h5
    · rw [hnone] at hii; cases hii
  | strFieldNotStr f k v hk hv hns =>
    obtain ⟨_, _, h3, h4, h5, _⟩ := validateAlert_ok_inv hok
    simp only [List.mem_cons, List.not_mem_nil, or_false] at hk
    rcases hk with rfl | rfl | rfl
    · rw [hv] at h3; simp at h3; exact hns _ h3
    · rw [hv] at h4; simp at h4; exact hns _ h4
    · rw [hv] at h5; simp at h5; exact hns _ h5
  | severityOut f v hv hout =>
    obtain ⟨⟨ss, hs, hsmem⟩, _⟩ := validateAlert_ok_inv hok
    rw [hv] at hs; simp at hs
    exact hout _ hsmem (by rw [hs])
  | categoryOut f v hv hout =>
    obtain ⟨_, ⟨sc, hc, hcmem⟩, _⟩ := validateAlert_ok_inv hok
    rw [hv] at hc; simp at hc
    exact hout _ hcmem (by rw [hc])
  | itemsNotList f v hv hns =>
    obtain ⟨_, _, _, _, _, elems, hii, _⟩ := validateAlert_ok_inv hok
    rw [hv] at hii; simp at hii
    exact hns _ hii
  | itemIdNotStr f elems e hvii he hns =>
    obtain ⟨_, _, _, _, _, elems', hii, hmapM⟩ := validateAlert_ok_inv hok
    rw [hvii] at hii
    simp only [Option.some.injEq, Json.arr.injEq] at hii
    subst hii
    obtain ⟨x, hx⟩ := exceptMapM_ok_mem hmapM e he
    exact hns x (asStr_ok hx)

/-- A successful scope-sentinel validation implies the input was a dict. -/
theorem validateSentinel_obj_of_ok {j : Json} {s : ScopeSentinel}
    (h : validateScopeSentinel j = .ok s) : ∃ f, j = .obj f := by
  cases j <;> simp_all [validateScopeSentinel]

/-- Bad scope-sentinel inputs never validate. -/
theorem badSentinel_not_ok {j : Json} (hb : BadScopeSentinel j)
    (s : ScopeSentinel) : validateScopeSentinel j ≠ .ok s := by
  intro hok
  cases hb with
  | notDict _ hno =>
    obtain ⟨f, rfl⟩ := validateSentinel_obj_of_ok hok
    exact hno f rfl
  | missingField f k hk hnone =>
    obtain ⟨⟨sr, hr, _⟩, h2, ⟨elems, hal, _⟩, h4⟩ := validateSentinel_ok_inv hok
    simp only [sentinelKeys, List.mem_cons, List.not_mem_nil, or_false] at hk
    rcases hk with rfl | rfl | rfl | rfl
    · rw [hnone] at hr; cases hr
    · rw [hnone] at h2; cases h2
    · rw [hnone] at hal; cases hal
    · rw [hnone] at h4; cases h4
  | summaryNotStr f v hv hns =>
    obtain ⟨_, h2, _⟩ := validateSentinel_ok_inv hok
    rw [hv] at h2; simp at h2; exact hns _ h2
  | overallRiskOut f v hv hout =>
    obtain ⟨⟨sr, hr, hrmem⟩, _⟩ := validateSentinel_ok_inv hok
    rw [hv] at hr; simp at hr
    exact hout _ hrmem (by rw [hr])
  | alertsNotList f v hv hns =>
    obtain ⟨_, _, ⟨elems, hal, _⟩, _⟩ := validateSentinel_ok_inv hok
    rw [hv] at hal; simp at hal
    exact hns _ hal
  | metricsNotDict f v hv hns =>
    obtain ⟨_, _, _, h4⟩ := validateSentinel_ok_inv hok
    rw [hv] at h4; simp at h4
    exact hns _ h4
  | alertBad f elems e hval he hbad =>
    obtain ⟨_, _, ⟨elems', hal, hmapM⟩, _⟩ := validateSentinel_ok_inv hok
    rw [hval] at hal
    simp only [Option.some.injEq, Json.arr.injEq] at hal
    subst hal
    obtain ⟨x, hx⟩ := exceptMapM_ok_mem hmapM e he
    exact badAlert_not_ok hbad x hx

/-- A successful package validation implies the input was a dict. -/
theorem validatePackage_obj_of_ok {j : Json} {p : DocumentationPackage}
    (h : validateDocumentationPackage j = .ok p) : ∃ f, j = .obj f := by
  cases j <;> simp_all [validateDocumentationPackage]

/-- Bad package inputs never validate. -/
theorem badPackage_not_ok {j : Json} (hb : BadPackageInput j)
    (p : DocumentationPackage) : validateDocumentationPackage j ≠ .ok p := by
  intro hok
  cases hb with
  | notDict _ hno =>
    obtain ⟨f, rfl⟩ := validatePackage_obj_of_ok hok
    exact hno f rfl
  | missingField f k hk hnone =>
    obtain ⟨h1, ⟨e2, h2, _⟩, ⟨e3, h3, _⟩, ⟨e4, h4, _⟩, ⟨e5, h5, _⟩,
      v6, h6, _⟩ := validatePackage_ok_inv hok
    simp only [packageKeys, List.mem_cons, List.not_mem_nil, or_false] at hk
    rcases hk with rfl | rfl | rfl | rfl | rfl | rfl
    · rw [hnone] at h1; cases h1
    · rw [hnone] at h2; cases h2
    · rw [hnone] at h3; cases h3
    · rw [hnone] at h4; cases h4
    · rw [hnone] at h5; cases h5
    · rw [hnone] at h6; cases h6
  | summaryNotStr f v hv hns =>
    obtain ⟨h1, _⟩ := validatePackage_ok_inv hok
    rw [hv] at h1; simp at h1; exact hns _ h1
  | listFieldNotList f k v hk hv hns =>
    obtain ⟨_, ⟨e2, h2, _⟩, ⟨e3, h3, _⟩, ⟨e4, h4, _⟩, ⟨e5, h5, _⟩, _⟩ :=
      validatePackage_ok_inv hok
    simp only [List.mem_cons, List.not_mem_nil, or_false] at hk
    rcases hk with rfl | rfl | rfl | rfl
    · rw [hv] at h2; simp at h2; exact hns _ h2
    · rw [hv] at h3; simp at h3; exact hns _ h3
    · rw [hv] at h4; simp at h4; exact hns _ h4
    · rw [hv] at h5; simp at h5; exact hns _ h5
  | itemBad f elems e hval he hbad =>
    obtain ⟨_, ⟨e2, h2, hm2⟩, _⟩ := validatePackage_ok_inv hok
    rw [hval] at h2
    simp only [Option.some.injEq, Json.arr.injEq] at h2
    subst h2
    obtain ⟨x, hx⟩ := exceptMapM_ok_mem hm2 e he
    exact badItem_not_ok hbad x hx
  | decisionBad f elems e hval he hbad =>
    obtain ⟨_, _, ⟨e3, h3, hm3⟩, _⟩ := validatePackage_ok_inv hok
    rw [hval] at h3
    simp only [Option.some.injEq, Json.arr.injEq] at h3
    subst h3
    obtain ⟨x, hx⟩ := exceptMapM_ok_mem hm3 e he
    exact badDecision_not_ok hbad x hx
  | riskBad f elems e hval he hbad =>
    obtain ⟨_, _, _, ⟨e4, h4, hm4⟩, _⟩ := validatePackage_ok_inv hok
    rw [hval] at h4
    simp only [Option.some.injEq, Json.arr.injEq] at h4
    subst h4
    obtain ⟨x, hx⟩ := exceptMapM_ok_mem hm4 e he
    exact badRisk_not_ok hbad x hx
  | releaseBad f elems e hval he hbad =>
    obtain ⟨_, _, _, _, ⟨e5, h5, hm5⟩, _⟩ := validatePackage_ok_inv hok
    rw [hval] at h5
    simp only [Option.some.injEq, Json.arr.injEq] at h5
    subst h5
    obtain ⟨x, hx⟩ := exceptMapM_ok_mem hm5 e he
    exact badRelease_not_ok hbad x hx
  | sentinelBad f v hval hbad =>
    obtain ⟨_, _, _, _, _, v6, h6, hv6⟩ := validatePackage_ok_inv hok
    rw [hval] at h6
    simp only [Option.some.injEq] at h6
    subst h6
    exact badSentinel_not_ok hbad _ hv6

/-- C2: every structured input that is missing a required field of the
`DocumentationPackage` schema, or contains a value outside a literal-valued
field's fixed set, or has a type mismatch (a non-string where a string is
expected, a non-list where a list is expected, a non-dict where a dict is
expected), at the top level or nested in any entity, is rejected by
validation with a validation error — no package is ever produced from it. -/
theorem C2_validate_rejects_bad_input (j : Json) (hb : BadPackageInput j) :
    ∃ e, validateDocumentationPackage j = .error e := by
  cases hv : validateDocumentationPackage j with
  | error e => exact ⟨e, rfl⟩
  | ok p => exact absurd hv (badPackage_not_ok hb p)

/-- Witness for C2: the empty object is missing the required
`meeting_summary` field and is rejected. -/
theorem C2_witness : ∃ e, validateDocumentationPackage (.obj []) = .error e :=
  C2_validate_rejects_bad_input (.obj [])
    (BadPackageInput.missingField [] "meeting_summary" (by simp [packageKeys]) rfl)

/-! ## Round-trip: `validate` after serialization -/

/-- Bind of an `ok` value reduces. -/
theorem except_ok_bind {ε α β : Type} (a : α) (g : α → Except ε β) :
    ((Except.ok a : Except ε α) >>= g) = g a := rfl

/-- `exceptMapM` over a serialized list succeeds when every element
round-trips. -/
theorem exceptMapM_map_ok {α β : Type} {g : β → Except String α} {h : α → β}
    {l : List α} (hall : ∀ a ∈ l, g (h a) = .ok a) :
    exceptMapM g (l.map h) = .ok l := by
  induction l with
  | nil => rfl
  | cons x xs ih =>
    have h1 := hall x (List.mem_cons_self x xs)
    have h2 := ih (fun a ha => hall a (List.mem_cons_of_mem x ha))
    simp only [List.map_cons]
    unfold exceptMapM
    simp only [h1, except_ok_bind, h2]

/-- Literal round-trip for `test_type`. -/
theorem litTestTypeRT (k : String) (a : TestType) :
    litOfJson TestType.table k (.str a.toStr) = .ok a := by cases a <;> rfl

/-- Literal round-trip for `priority`. -/
theorem litPriorityRT (k : String) (a : Priority) :
    litOfJson Priority.table k (.str a.toStr) = .ok a := by cases a <;> rfl

/-- Literal round-trip for `complexity`. -/
theorem litComplexityRT (k : String) (a : Complexity) :
    litOfJson Complexity.table k (.str a.toStr) = .ok a := by cases a <;> rfl

/-- Literal round-trip for `definition_of_ready_status`. -/
theorem litReadyStatusRT (k : String) (a : ReadyStatus) :
    litOfJson ReadyStatus.table k (.str a.toStr) = .ok a := by cases a <;> rfl

/-- Literal round-trip for the risk `category`. -/
theorem litRiskCategoryRT (k : String) (a : RiskCategory) :
    litOfJson RiskCategory.table k (.str a.toStr) = .ok a := by cases a <;> rfl

/-- Literal round-trip for `impact`. -/
theorem litImpactRT (k : String) (a : Impact) :
    litOfJson Impact.table k (.str a.toStr) = .ok a := by cases a <;> rfl

/-- Literal round-trip for `audience`. -/
theorem litAudienceRT (k : String) (a : Audience) :
    litOfJson Audience.table k (.str a.toStr) = .ok a := by cases a <;> rfl

/-- Literal round-trip for `severity` / `overall_risk`. -/
theorem litSeverityRT (k : String) (a : Severity) :
    litOfJson Severity.table k (.str a.toStr) = .ok a := by cases a <;> rfl

/-- Literal round-trip for the scope `category`. -/
theorem litScopeCategoryRT (k : String) (a : ScopeCategory) :
    litOfJson ScopeCategory.table k (.str a.toStr) = .ok a := by cases a <;> rfl

/-- A serialized acceptance criterion re-validates to itself. -/
theorem acRoundTrip (a : AcceptanceCriteria) :
    validateAcceptanceCriteria (acToJson a) = .ok a := by
  obtain ⟨c, t⟩ := a
  cases t <;> rfl

/-- A serialized backlog item re-validates to itself. -/
theorem itemRoundTrip (b : BacklogItem) :
    validateBacklogItem (itemToJson b) = .ok b := by
  obtain ⟨i, ti, us, pr, cx, dr, mi, ac⟩ := b
  have hac : exceptMapM validateAcceptanceCriteria (ac.map acToJson) = .ok ac :=
    exceptMapM_map_ok (fun a _ => acRoundTrip a)
  simp [itemToJson, validateBacklogItem, reqStr, reqList, reqLit, reqField,
    getField, asStr, asList, except_ok_bind, litPriorityRT, litComplexityRT,
    litReadyStatusRT, hac]

/-- A serialized decision note re-validates to itself. -/
theorem decisionRoundTrip (d : DecisionNote) :
    validateDecisionNote (decisionToJson d) = .ok d := by
  obtain ⟨t, dm, ra, ow⟩ := d
  rfl

/-- A serialized risk/assumption re-validates to itself. -/
theorem riskRoundTrip (r : RiskAssumption) :
    validateRiskAssumption (riskToJson r) = .ok r := by
  obtain ⟨c, de, im, mi⟩ := r
  cases c <;> cases im <;> rfl

/-- A serialized release note re-validates to itself. -/
theorem releaseRoundTrip (r : ReleaseNoteEntry) :
    validateReleaseNoteEntry (releaseToJson r) = .ok r := by
  obtain ⟨fn, vs, au⟩ := r
  cases au <;> rfl

/-- A serialized scope alert re-validates to itself. -/
theorem alertRoundTrip (a : ScopeAlert) :
    validateScopeAlert (alertToJson a) = .ok a := by
  obtain ⟨sv, ca, de, qu, re, ii⟩ := a
  have hii : exceptMapM (asStr "impacted_items") (ii.map Json.str) = .ok ii :=
    exceptMapM_map_ok (fun s _ => rfl)
  simp [alertToJson, validateScopeAlert, reqStr, reqList, reqLit, reqField,
    getField, asStr, asList, except_ok_bind, litSeverityRT, litScopeCategoryRT,
    hii]

/-- A serialized scope sentinel re-validates to itself. -/
theorem sentinelRoundTrip (s : ScopeSentinel) :
    validateScopeSentinel (sentinelToJson s) = .ok s := by
  obtain ⟨orisk, su, al, me⟩ := s
  have hal : exceptMapM validateScopeAlert (al.map alertToJson) = .ok al :=
    exceptMapM_map_ok (fun a _ => alertRoundTrip a)
  simp [sentinelToJson, validateScopeSentinel, reqStr, reqList, reqLit, reqObj,
    reqField, getField, asStr, asList, asObj, except_ok_bind, litSeverityRT, hal]

/-- A serialized package re-validates to itself. -/
theorem packageRoundTrip (p : DocumentationPackage) :
    validateDocumentationPackage (packageToJson p) = .ok p := by
  obtain ⟨ms, bi, dl, rr, rn, sc⟩ := p
  have hbi : exceptMapM validateBacklogItem (bi.map itemToJson) = .ok bi :=
    exceptMapM_map_ok (fun b _ => itemRoundTrip b)
  have hdl : exceptMapM validateDecisionNote (dl.map decisionToJson) = .ok dl :=
    exceptMapM_map_ok (fun d _ => decisionRoundTrip d)
  have hrr : exceptMapM validateRiskAssumption (rr.map riskToJson) = .ok rr :=
    exceptMapM_map_ok (fun r _ => riskRoundTrip r)
  have hrn : exceptMapM validateReleaseNoteEntry (rn.map releaseToJson) = .ok rn :=
    exceptMapM_map_ok (fun r _ => releaseRoundTrip r)
  have hsc := sentinelRoundTrip sc
  simp [packageToJson, packageFields, validateDocumentationPackage, reqStr,
    reqList, reqField, getField, asStr, asList, except_ok_bind, hbi, hdl, hrr,
    hrn, hsc]

/-- C7: re-serializing a valid `DocumentationPackage` and re-validating the
resulting structured data yields a package equal to the original (round-trip
stability of `validate` after serialization). -/
theorem C7_roundtrip_stability (p : DocumentationPackage) :
    validateDocumentationPackage (packageToJson p) = .ok p :=
  packageRoundTrip p

/-! ## Unknown fields are ignored (pydantic default `extra='ignore'`) -/

/-- Every key declared by some model of the schema. -/
def allDeclaredKeys : List String :=
  packageKeys ++ itemKeys ++ acKeys ++ decisionKeys ++ riskKeys ++
  releaseKeys ++ alertKeys ++ sentinelKeys

/-- Lookup skips a binding with a different key. -/
theorem getField_cons_ne {k' k : String} {v : Json} {f : List (String × Json)}
    (h : ¬ k' = k) : getField ((k', v) :: f) k = getField f k := by
  simp [getField, h]

/-- Acceptance-criterion validation ignores an undeclared leading field. -/
theorem validateAC_ignores_unknown (k : String) (v : Json)
    (hk : k ∉ acKeys) (f : List (String × Json)) :
    validateAcceptanceCriteria (.obj ((k, v) :: f)) =
      validateAcceptanceCriteria (.obj f) := by
  simp only [acKeys, List.mem_cons, List.not_mem_nil, or_false, not_or] at hk
  obtain ⟨h1, h2⟩ := hk
  simp [validateAcceptanceCriteria, reqStr, reqLit, reqField, getField, h1, h2]

/-- Backlog-item validation ignores an undeclared leading field. -/
theorem validateItem_ignores_unknown (k : String) (v : Json)
    (hk : k ∉ itemKeys) (f : List (String × Json)) :
    validateBacklogItem (.obj ((k, v) :: f)) = validateBacklogItem (.obj f) := by
  simp only [itemKeys, List.mem_cons, List.not_mem_nil, or_false, not_or] at hk
  obtain ⟨h1, h2, h3, h4, h5, h6, h7, h8⟩ := hk
  simp [validateBacklogItem, reqStr, reqLit, reqList, reqField, getField,
    h1, h2, h3, h4, h5, h6, h7, h8]

/-- Decision-note validation ignores an undeclared leading field. -/
theorem validateDecision_ignores_unknown (k : String) (v : Json)
    (hk : k ∉ decisionKeys) (f : List (String × Json)) :
    validateDecisionNote (.obj ((k, v) :: f)) = validateDecisionNote (.obj f) := by
  simp only [decisionKeys, List.mem_cons, List.not_mem_nil, or_false, not_or] at hk
  obtain ⟨h1, h2, h3, h4⟩ := hk
  simp [validateDecisionNote, reqStr, reqField, getField, h1, h2, h3, h4]

/-- Risk/assumption validation ignores an undeclared leading field. -/
theorem validateRisk_ignores_unknown (k : String) (v : Json)
    (hk : k ∉ riskKeys) (f : List (String × Json)) :
    validateRiskAssumption (.obj ((k, v) :: f)) = validateRiskAssumption (.obj f) := by
  simp only [riskKeys, List.mem_cons, List.not_mem_nil, or_false, not_or] at hk
  obtain ⟨h1, h2, h3, h4⟩ := hk
  simp [validateRiskAssumption, reqStr, reqLit, reqField, getField, h1, h2, h3, h4]

/-- Release-note validation ignores an undeclared leading field. -/
theorem validateRelease_ignores_unknown (k : String) (v : Json)
    (hk : k ∉ releaseKeys) (f : List (String × Json)) :
    validateReleaseNoteEntry (.obj ((k, v) :: f)) =
      validateReleaseNoteEntry (.obj f) := by
  simp only [releaseKeys, List.mem_cons, List.not_mem_nil, or_false, not_or] at hk
  obtain ⟨h1, h2, h3⟩ := hk
  simp [validateReleaseNoteEntry, reqStr, reqLit, reqField, getField, h1, h2, h3]

/-- Scope-alert validation ignores an undeclared leading field. -/
theorem validateAlert_ignores_unknown (k : String) (v : Json)
    (hk : k ∉ alertKeys) (f : List (String × Json)) :
    validateScopeAlert (.obj ((k, v) :: f)) = validateScopeAlert (.obj f) := by
  simp only [alertKeys, List.mem_cons, List.not_mem_nil, or_false, not_or] at hk
  obtain ⟨h1, h2, h3, h4, h5, h6⟩ := hk
  simp [validateScopeAlert, reqStr, reqLit, reqList, reqField, getField,
    h1, h2, h3, h4, h5, h6]

/-- Scope-sentinel validation ignores an undeclared leading field. -/
theorem validateSentinel_ignores_unknown (k : String) (v : Json)
    (hk : k ∉ sentinelKeys) (f : List (String × Json)) :
    validateScopeSentinel (.obj ((k, v) :: f)) = validateScopeSentinel (.obj f) := by
  simp only [sentinelKeys, List.mem_cons, List.not_mem_nil, or_false, not_or] at hk
  obtain ⟨h1, h2, h3, h4⟩ := hk
  simp [validateScopeSentinel, reqStr, reqLit, reqList, reqObj, reqField,
    getField, h1, h2, h3, h4]

/-- Package validation ignores an undeclared leading field. -/
theorem validatePackage_ignores_unknown (k : String) (v : Json)
    (hk : k ∉ packageKeys) (f : List (String × Json)) :
    validateDocumentationPackage (.obj ((k, v) :: f)) =
      validateDocumentationPackage (.obj f) := by
  simp only [packageKeys, List.mem_cons, List.not_mem_nil, or_false, not_or] at hk
  obtain ⟨h1, h2, h3, h4, h5, h6⟩ := hk
  simp [validateDocumentationPackage, reqStr, reqList, reqField, getField,
    h1, h2, h3, h4, h5, h6]

/-- C10: a field whose key is not declared anywhere in the schema is ignored
permissively by every validator — at the package level and inside every
nested entity — and an otherwise-valid input still validates, the unknown
field silently dropped from the result. -/
theorem C10_unknown_fields_ignored (k : String) (v : Json)
    (hk : k ∉ allDeclaredKeys) :
    (∀ f, validateDocumentationPackage (.obj ((k, v) :: f)) =
      validateDocumentationPackage (.obj f)) ∧
    (∀ f, validateBacklogItem (.obj ((k, v) :: f)) = validateBacklogItem (.obj f)) ∧
    (∀ f, validateAcceptanceCriteria (.obj ((k, v) :: f)) =
      validateAcceptanceCriteria (.obj f)) ∧
    (∀ f, validateDecisionNote (.obj ((k, v) :: f)) = validateDecisionNote (.obj f)) ∧
    (∀ f, validateRiskAssumption (.obj ((k, v) :: f)) =
      validateRiskAssumption (.obj f)) ∧
    (∀ f, validateReleaseNoteEntry (.obj ((k, v) :: f)) =
      validateReleaseNoteEntry (.obj f)) ∧
    (∀ f, validateScopeAlert (.obj ((k, v) :: f)) = validateScopeAlert (.obj f)) ∧
    (∀ f, validateScopeSentinel (.obj ((k, v) :: f)) =
      validateScopeSentinel (.obj f)) ∧
    (∀ p : DocumentationPackage,
      validateDocumentationPackage (.obj ((k, v) :: packageFields p)) = .ok p) := by
  have hp : k ∉ packageKeys := fun h => hk (by simp [allDeclaredKeys, h])
  have hi : k ∉ itemKeys := fun h => hk (by simp [allDeclaredKeys, h])
  have ha : k ∉ acKeys := fun h => hk (by simp [allDeclaredKeys, h])
  have hd : k ∉ decisionKeys := fun h => hk (by simp [allDeclaredKeys, h])
  have hr : k ∉ riskKeys := fun h => hk (by simp [allDeclaredKeys, h])
  have hrl : k ∉ releaseKeys := fun h => hk (by simp [allDeclaredKeys, h])
  have hal : k ∉ alertKeys := fun h => hk (by simp [allDeclaredKeys, h])
  have hs : k ∉ sentinelKeys := fun h => hk (by simp [allDeclaredKeys, h])
  refine ⟨validatePackage_ignores_unknown k v hp,
    validateItem_ignores_unknown k v hi,
    validateAC_ignores_unknown k v ha,
    validateDecision_ignores_unknown k v hd,
    validateRisk_ignores_unknown k v hr,
    validateRelease_ignores_unknown k v hrl,
    validateAlert_ignores_unknown k v hal,
    validateSentinel_ignores_unknown k v hs,
    fun p => ?_⟩
  rw [validatePackage_ignores_unknown k v hp]
  exact packageRoundTrip p

/-- A small concrete package for witnesses. -/
def samplePackage : DocumentationPackage :=
  ⟨"Summary", [], [], [], [], ⟨.low, "ok", [], []⟩⟩

/-- Witness for C10: an input extending the serialized sample package with an
undeclared `extra_field` still validates to the sample package. -/
theorem C10_witness :
    validateDocumentationPackage
      (.obj (("extra_field", .num 1) :: packageFields samplePackage)) =
      .ok samplePackage :=
  (C10_unknown_fields_ignored "extra_field" (.num 1)
    (by decide)).2.2.2.2.2.2.2.2 samplePackage

/-! ## Normalizer and endpoint claims -/

/-- C6: if the trimmed response is wrapped in a fenced block (it starts with
a fence marker — regardless of any language tag — and its last line is a
fence marker), the normalizer strips exactly the first and last lines; if
there is no opening fence, the trimmed text passes through unchanged. -/
theorem C6_fence_wrapped_stripped (raw : String) :
    (strStartsWith (pyStrip raw) "```" = true →
      2 ≤ (responseLines (pyStrip raw)).length →
      (⟨(responseLines (pyStrip raw)).getLastD []⟩ : String).data.take 3 = "```".data →
      normalizeText raw =
        ⟨joinLines (((responseLines (pyStrip raw)).drop 1).dropLast)⟩) ∧
    (strStartsWith (pyStrip raw) "```" = false → normalizeText raw = pyStrip raw) := by
  constructor
  · intro h _ _
    simp [normalizeText, h]
  · intro h
    simp [normalizeText, h]

/-- Witness for C6: a fenced payload with a language tag is stripped to the
inner JSON text, and an unfenced payload passes through trimmed. -/
theorem C6_witness :
    normalizeText "```json\n\x7b\"a\": 1\x7d\n```" = "\x7b\"a\": 1\x7d" ∧
    normalizeText "  plain text  " = "plain text" := by
  constructor
  · rw [(C6_fence_wrapped_stripped "```json\n\x7b\"a\": 1\x7d\n```").1 rfl
      (by decide) rfl]
    decide
  · rw [(C6_fence_wrapped_stripped "  plain text  ").2 rfl]
    decide

/-- C9: whenever the trimmed response starts with a fence marker, the
normalizer removes both the first and the last line unconditionally —
it never checks that the last line is a closing fence — so an unwrapped
response beginning with a fence loses its final content line. -/
theorem C9_strip_ignores_last_line (raw : String)
    (h : strStartsWith (pyStrip raw) "```" = true) :
    normalizeText raw =
      ⟨joinLines (((responseLines (pyStrip raw)).drop 1).dropLast)⟩ := by
  simp [normalizeText, h]

/-- Witness for C9: a response that starts with a fence but has no closing
fence loses its final line of content (here, everything after the fence). -/
theorem C9_witness : normalizeText "```json\n\x7b\"a\": 1\x7d" = "" := by
  rw [C9_strip_ignores_last_line "```json\n\x7b\"a\": 1\x7d" rfl]
  decide

/-- C8: the prompt is a pure function of the transcript — the transcript is
embedded verbatim (unmutated and untruncated, as the length equation shows)
between two fixed template constants that do not depend on it. -/
theorem C8_prompt_embeds_transcript_verbatim (t : String) :
    buildPrompt t = promptHead ++ t ++ promptTail ∧
    (buildPrompt t).length = promptHead.length + t.length + promptTail.length := by
  refine ⟨rfl, ?_⟩
  simp [buildPrompt, String.length_append]

/-- C3: a request whose transcript is empty or whitespace-only fails with the
empty-input error (HTTP 400, `"Transcript cannot be empty"`) and the upstream
model call is never attempted (the second component is `false`). -/
theorem C3_empty_transcript_no_upstream_call (transcript : String)
    (u : UpstreamCall) (h : pyStrip transcript = "") :
    generateDocumentation true transcript u =
      (.error ⟨400, "Transcript cannot be empty"⟩, false) := by
  simp [generateDocumentation, h]

/-- Witness for C3: a whitespace-only transcript is rejected with the
empty-input failure and no upstream call. -/
theorem C3_witness :
    generateDocumentation true "   " (fun _ => .ok "unused") =
      (.error ⟨400, "Transcript cannot be empty"⟩, false) :=
  C3_empty_transcript_no_upstream_call "   " (fun _ => .ok "unused") rfl

/-- Whether an `Except` computation succeeded. -/
def exceptIsOk {ε α : Type} : Except ε α → Bool
  | .ok _ => true
  | .error _ => false


/-- C5 (amended): the endpoint's error kinds map to statuses as follows —
missing configuration, upstream failure, parse failure and schema-validation
failure all map to HTTP 500, distinguished only by their detail messages,
while only the empty-transcript error maps to HTTP 400.  (The statuses of
distinct kinds therefore do not all differ, and no rate-limit error exists
in the endpoint.) -/
theorem C5_error_status_mapping :
    (∀ tr u, (generateDocumentation false tr u).1 =
      .error ⟨500, "GEMINI_API_KEY not configured"⟩) ∧
    (∀ tr u, pyStrip tr = "" → (generateDocumentation true tr u).1 =
      .error ⟨400, "Transcript cannot be empty"⟩) ∧
    (∀ tr u m, ¬ pyStrip tr = "" → u (buildPrompt tr) = .error m →
      (generateDocumentation true tr u).1 =
        .error ⟨500, "Error generating documentation: " ++ m⟩) ∧
    (∀ tr u raw, ¬ pyStrip tr = "" → u (buildPrompt tr) = .ok raw →
      exceptIsOk (parseJson (normalizeText raw)) = false →
      (generateDocumentation true tr u).1 =
        .error ⟨500, "Failed to parse Gemini response as JSON. Response: " ++
          takeChars 200 (normalizeText raw) ++ "..."⟩) ∧
    (∀ tr u raw d msg, ¬ pyStrip tr = "" → u (buildPrompt tr) = .ok raw →
      parseJson (normalizeText raw) = .ok d →
      validateDocumentationPackage d = .error msg →
      (generateDocumentation true tr u).1 =
        .error ⟨500, "Error generating documentation: " ++ msg⟩) := by
  refine ⟨?_, ?_, ?_, ?_, ?_⟩
  · intro tr u
    simp [generateDocumentation]
  · intro tr u h
    simp [generateDocumentation, h]
  · intro tr u m hts hup
    simp [generateDocumentation, hts, hup]
  · intro tr u raw hts hup hpe
    cases hpj : parseJson (normalizeText raw) with
    | ok d => rw [hpj] at hpe; simp [exceptIsOk] at hpe
    | error e => simp [generateDocumentation, hts, hup, hpj]
  · intro tr u raw d msg hts hup hpj hval
    simp [generateDocumentation, hts, hup, hpj, hval]

/-- Witness for C5 (amended): the configuration error and the empty-input
error at concrete requests, with their distinct statuses 500 and 400. -/
theorem C5_witness :
    (generateDocumentation false "hi" (fun _ => .ok "x")).1 =
      .error ⟨500, "GEMINI_API_KEY not configured"⟩ ∧
    (generateDocumentation true " " (fun _ => .ok "x")).1 =
      .error ⟨400, "Transcript cannot be empty"⟩ :=
  ⟨C5_error_status_mapping.1 "hi" (fun _ => .ok "x"),
   C5_error_status_mapping.2.1 " " (fun _ => .ok "x") rfl⟩

/-- Counterexample to C5 as stated: a configuration failure and a parse
failure are different error kinds, yet both return status 500 — the statuses
of distinct kinds do not differ. -/
theorem C5_counterexample :
    (generateDocumentation false "hi" (fun _ => .ok "x")).1 =
      .error ⟨500, "GEMINI_API_KEY not configured"⟩ ∧
    (generateDocumentation true "hi" (fun _ => .ok "not json")).1 =
      .error ⟨500, "Failed to parse Gemini response as JSON. Response: " ++
        takeChars 200 (normalizeText "not json") ++ "..."⟩ ∧
    (500 : Nat) = 500 ∧
    ¬ ("GEMINI_API_KEY not configured" =
       "Failed to parse Gemini response as JSON. Response: " ++
         takeChars 200 (normalizeText "not json") ++ "...") := by
  refine ⟨rfl, rfl, rfl, by decide⟩

/-! ## Rate-limiter claims (spec-modelled) -/

/-- Unfolding of `admitRequest` on a single-client store. -/
theorem admitRequest_single (limit : Nat) (w : Int) (k : String) (l : List Int)
    (now : Int) :
    admitRequest ⟨limit, w, [(k, l)]⟩ k now =
      if limit ≤ (l.filter (fun ts => decide (now - w ≤ ts))).length then
        (false, ⟨limit, w, [(k, l.filter (fun ts => decide (now - w ≤ ts)))]⟩)
      else
        (true, ⟨limit, w,
          [(k, l.filter (fun ts => decide (now - w ≤ ts)) ++ [now])]⟩) := by
  simp only [admitRequest, getStamps, setStamps, if_pos]

/-- The window filter keeps every timestamp still inside the window. -/
theorem filter_window_keep (now w : Int) (l : List Int)
    (h : ∀ x ∈ l, now - w ≤ x) :
    l.filter (fun ts => decide (now - w ≤ ts)) = l :=
  List.filter_eq_self.mpr (fun x hx => decide_eq_true (h x hx))

/-- C1 (amended): with limit 5 and a 3600-second window, five admissions at
times `t0 ≤ t1 ≤ t2 ≤ t3 ≤ t4` within one window are all allowed (each
recording its timestamp), a sixth attempt at any time `t ≤ t0 + 3600` is
denied without recording (the oldest timestamp `t0` is not yet older than
`t - 3600`), and an attempt at any time `t > t0 + 3600` is admitted. -/
theorem C1_sliding_window_amended (k : String) (t0 t1 t2 t3 t4 t : Int)
    (h01 : t0 ≤ t1) (h12 : t1 ≤ t2) (h23 : t2 ≤ t3) (h34 : t3 ≤ t4)
    (hw : t4 < t0 + 3600) :
    admitRequest demoLimiter k t0 = (true, ⟨5, 3600, [(k, [t0])]⟩) ∧
    admitRequest ⟨5, 3600, [(k, [t0])]⟩ k t1 =
      (true, ⟨5, 3600, [(k, [t0, t1])]⟩) ∧
    admitRequest ⟨5, 3600, [(k, [t0, t1])]⟩ k t2 =
      (true, ⟨5, 3600, [(k, [t0, t1, t2])]⟩) ∧
    admitRequest ⟨5, 3600, [(k, [t0, t1, t2])]⟩ k t3 =
      (true, ⟨5, 3600, [(k, [t0, t1, t2, t3])]⟩) ∧
    admitRequest ⟨5, 3600, [(k, [t0, t1, t2, t3])]⟩ k t4 =
      (true, ⟨5, 3600, [(k, [t0, t1, t2, t3, t4])]⟩) ∧
    (t ≤ t0 + 3600 →
      admitRequest ⟨5, 3600, [(k, [t0, t1, t2, t3, t4])]⟩ k t =
        (false, ⟨5, 3600, [(k, [t0, t1, t2, t3, t4])]⟩)) ∧
    (t0 + 3600 < t →
      (admitRequest ⟨5, 3600, [(k, [t0, t1, t2, t3, t4])]⟩ k t).1 = true) := by
  refine ⟨rfl, ?_, ?_, ?_, ?_, ?_, ?_⟩
  · rw [admitRequest_single,
      filter_window_keep _ _ _ (by
        intro x hx
        simp only [List.mem_cons, List.not_mem_nil, or_false] at hx
        subst hx; omega)]
    simp
  · rw [admitRequest_single,
      filter_window_keep _ _ _ (by
        intro x hx
        simp only [List.mem_cons, List.not_mem_nil, or_false] at hx
        rcases hx with rfl | rfl <;> omega)]
    simp
  · rw [admitRequest_single,
      filter_window_keep _ _ _ (by
        intro x hx
        simp only [List.mem_cons, List.not_mem_nil, or_false] at hx
        rcases hx with rfl | rfl | rfl <;> omega)]
    simp
  · rw [admitRequest_single,
      filter_window_keep _ _ _ (by
        intro x hx
        simp only [List.mem_cons, List.not_mem_nil, or_false] at hx
        rcases hx with rfl | rfl | rfl | rfl <;> omega)]
    simp
  · intro ht
    rw [admitRequest_single,
      filter_window_keep _ _ _ (by
        intro x hx
        simp only [List.mem_cons, List.not_mem_nil, or_false] at hx
        rcases hx with rfl | rfl | rfl | rfl | rfl <;> omega)]
    simp
  · intro ht
    rw [admitRequest_single]
    have hdrop : List.filter (fun ts => decide (t - 3600 ≤ ts)) [t0, t1, t2, t3, t4] =
        List.filter (fun ts => decide (t - 3600 ≤ ts)) [t1, t2, t3, t4] := by
      rw [List.filter_cons]
      rw [decide_eq_false (by omega : ¬ (t - 3600 ≤ t0))]
      simp
    rw [hdrop]
    have hle := List.length_filter_le (fun ts => decide (t - 3600 ≤ ts)) [t1, t2, t3, t4]
    rw [if_neg (by simp at hle ⊢; omega)]

/-- Counterexample to C1 as stated: five admissions at time 0 fill the
window, and a sixth attempt at time 3600 — which satisfies the claim's
`t ≥ t0 + 3600` — is still denied, because the timestamp at 0 is not yet
strictly older than `3600 - 3600`. -/
theorem C1_counterexample :
    admitRequest demoLimiter "client" 0 =
      (true, ⟨5, 3600, [("client", [0])]⟩) ∧
    admitRequest ⟨5, 3600, [("client", [0])]⟩ "client" 0 =
      (true, ⟨5, 3600, [("client", [0, 0])]⟩) ∧
    admitRequest ⟨5, 3600, [("client", [0, 0])]⟩ "client" 0 =
      (true, ⟨5, 3600, [("client", [0, 0, 0])]⟩) ∧
    admitRequest ⟨5, 3600, [("client", [0, 0, 0])]⟩ "client" 0 =
      (true, ⟨5, 3600, [("client", [0, 0, 0, 0])]⟩) ∧
    admitRequest ⟨5, 3600, [("client", [0, 0, 0, 0])]⟩ "client" 0 =
      (true, ⟨5, 3600, [("client", [0, 0, 0, 0, 0])]⟩) ∧
    ((0 : Int) + 3600 ≤ 3600) ∧
    (admitRequest ⟨5, 3600, [("client", [0, 0, 0, 0, 0])]⟩ "client" 3600).1 =
      false :=
  ⟨rfl, rfl, rfl, rfl, rfl, by decide, rfl⟩

/-- Witness for C1 (amended) at concrete times 0, 600, 1200, 1800, 2400 and
a sixth attempt at 9999. -/
theorem C1_witness :
    admitRequest demoLimiter "c" 0 = (true, ⟨5, 3600, [("c", [0])]⟩) ∧
    admitRequest ⟨5, 3600, [("c", [0])]⟩ "c" 600 =
      (true, ⟨5, 3600, [("c", [0, 600])]⟩) ∧
    admitRequest ⟨5, 3600, [("c", [0, 600])]⟩ "c" 1200 =
      (true, ⟨5, 3600, [("c", [0, 600, 1200])]⟩) ∧
    admitRequest ⟨5, 3600, [("c", [0, 600, 1200])]⟩ "c" 1800 =
      (true, ⟨5, 3600, [("c", [0, 600, 1200, 1800])]⟩) ∧
    admitRequest ⟨5, 3600, [("c", [0, 600, 1200, 1800])]⟩ "c" 2400 =
      (true, ⟨5, 3600, [("c", [0, 600, 1200, 1800, 2400])]⟩) ∧
    ((9999 : Int) ≤ 0 + 3600 →
      admitRequest ⟨5, 3600, [("c", [0, 600, 1200, 1800, 2400])]⟩ "c" 9999 =
        (false, ⟨5, 3600, [("c", [0, 600, 1200, 1800, 2400])]⟩)) ∧
    ((0 : Int) + 3600 < 9999 →
      (admitRequest ⟨5, 3600, [("c", [0, 600, 1200, 1800, 2400])]⟩ "c" 9999).1 =
        true) :=
  C1_sliding_window_amended "c" 0 600 1200 1800 2400 9999
    (by decide) (by decide) (by decide) (by decide) (by decide)

/-! ## Bounded validation error messages (C4)

`str(ValidationError)` in pydantic v2 prints, per failing field, a line whose
`input_value=` component goes through pydantic-core's `truncate_safe_repr`
— the offending value is shown truncated (about 50 characters), never in
full.  The embedding surfaces the first such line; the lemmas below bound
its length, so the caller-visible detail carries only a bounded excerpt of
the response. -/

